import Mathlib

/-!
# Stencil portal lifecycle of `src/gl/scene/gl_portal.cpp`

A shallow embedding of `GLPortal::ClearScreen`, `GLPortal::DrawPortalStencil`,
`GLPortal::Start`, `GLPortal::End`, `GLHorizonPortal::DrawContents` and
`GLEEHorizonPortal::DrawContents`.

The graphics device and the render-state facade are modelled as a record of the
settings the portal code writes (`GLState`).  Every call that reaches the device,
the facade or another external collaborator is appended to a chronological log
(`World.trace`); each log entry carries the device state and the recursion counter
that were current when the call was issued.  `Clocker c(PortalAll)` only measures
wall-clock time and is left out.
-/

namespace GLPortalModel

/-! ## Enumerations used by the portal code -/

/-- Comparison functions passed to `glStencilFunc` and `glDepthFunc`. -/
inductive CompareFunc where
  | GL_NEVER | GL_LESS | GL_EQUAL | GL_LEQUAL | GL_GREATER | GL_NOTEQUAL | GL_GEQUAL | GL_ALWAYS
  deriving DecidableEq, Repr

/-- Stencil actions passed to `glStencilOp`. -/
inductive StencilAction where
  | GL_KEEP | GL_ZERO | GL_REPLACE | GL_INCR | GL_DECR | GL_INVERT
  deriving DecidableEq, Repr

/-- Primitive modes used for the draws. -/
inductive PrimMode where
  | GL_TRIANGLE_FAN | GL_TRIANGLE_STRIP
  deriving DecidableEq, Repr

/-- Capabilities toggled with `glEnable` / `glDisable`. -/
inductive Capability where
  | GL_DEPTH_TEST | GL_MULTISAMPLE
  deriving DecidableEq, Repr

/-- Shader effects of the render-state facade. -/
inductive Effect where
  | EFF_NONE | EFF_STENCIL
  deriving DecidableEq, Repr

/-- Blend factors passed to `gl_RenderState.BlendFunc`. -/
inductive BlendFactor where
  | GL_ZERO | GL_ONE | GL_SRC_ALPHA | GL_ONE_MINUS_SRC_ALPHA
  deriving DecidableEq, Repr

/-- Blend equations passed to `gl_RenderState.BlendEquation`. -/
inductive BlendEq where
  | GL_FUNC_ADD | GL_FUNC_SUBTRACT | GL_FUNC_REVERSE_SUBTRACT
  deriving DecidableEq, Repr

/-- The three modes of `DrawPortalStencil` (plus the combined one). -/
inductive StencilPass where
  | STP_Stencil | STP_DepthClear | STP_DepthRestore | STP_AllInOne
  deriving DecidableEq, Repr

/-- The mask `~0` of an unsigned 32 bit `GLuint`. -/
def allBits : Nat := 0xFFFFFFFF

/-! ## Device state, log and world -/

/-- The device and facade settings written by the portal code. -/
structure GLState where
  stencilFunc : CompareFunc
  stencilRef : Int
  stencilMask : Nat
  stencilFail : StencilAction
  stencilZFail : StencilAction
  stencilZPass : StencilAction
  colorMaskR : Bool
  colorMaskG : Bool
  colorMaskB : Bool
  colorMaskA : Bool
  depthFunc : CompareFunc
  depthMask : Bool
  depthRangeNear : Nat
  depthRangeFar : Nat
  depthTest : Bool
  multisample : Bool
  textureEnabled : Bool
  effect : Effect
  blendSrc : BlendFactor
  blendDst : BlendFactor
  blendEquation : BlendEq
  deriving DecidableEq, Repr

/-- One call that leaves the portal code.  `Apply none` is
`gl_RenderState.Apply(AttributeBufferData::StencilIndex, false)`, `Apply (some i)` is
`gl_RenderState.Apply(i, false)`; `glClearDepthBuffer` is `glClear(GL_DEPTH_BUFFER_BIT)`.
The last four constructors mark the entry of `DrawPortalStencil`, of the screen-clear
fallback and of a content renderer. -/
inductive Call where
  | glStencilFunc (f : CompareFunc) (ref : Int) (mask : Nat)
  | glStencilOp (sfail zfail zpass : StencilAction)
  | glColorMask (r g b a : Bool)
  | glDepthFunc (f : CompareFunc)
  | glDepthMask (flag : Bool)
  | glDepthRange (near far : Nat)
  | glEnable (cap : Capability)
  | glDisable (cap : Capability)
  | glIsEnabled (cap : Capability)
  | glClearDepthBuffer
  | glDrawArrays (mode : PrimMode) (first count : Nat)
  | glBeginQuery
  | glEndQuery
  | glGetQueryObjectuiv
  | RenderArray (mode : PrimMode) (offset count : Nat)
  | EnableTexture (flag : Bool)
  | SetEffect (eff : Effect)
  | BlendFunc (src dst : BlendFactor)
  | BlendEquation (eq : BlendEq)
  | ResetColor
  | Apply (attrindex : Option Nat)
  | SetMaterial (material : Nat)
  | SetCameraPos
  | Set2D
  | BindViewpoint (vpIndex : Nat)
  | StartDrawInfo
  | EndDrawInfo
  | DrawPortalStencil (pass : StencilPass)
  | ClearScreen
  | HorizonDrawContents (texture voffset vcount attrindex : Nat)
  | SkyDrawContents (sky : Nat)
  deriving DecidableEq, Repr

/-- A log entry: the call, and the device state and recursion counter current when
it was issued. -/
structure Event where
  call : Call
  gl : GLState
  recursion : Int
  deriving DecidableEq, Repr

/-- Everything the portal code reads or writes outside the portal object.  The two
counters are C++ `int`s; they count nesting depth and portals of one frame and are
modelled as unbounded integers.  The fields are:
the device (`gl`), the scene state (`mState->recursion`), the statistics counter
`rendered_portals`, the render flags of the actors (`AActor::renderflags`, indexed by
the actor's address) and the log. -/
structure World where
  gl : GLState
  recursion : Int
  rendered_portals : Int
  renderflags : Nat → Nat
  trace : List Event

/-- Append a call to the log, stamped with the current state. -/
@[simp]
def emit (c : Call) (w : World) : World :=
  { w with trace := w.trace ++ [⟨c, w.gl, w.recursion⟩] }

/-! ## Device and facade primitives -/

@[simp]
def glStencilFunc (f : CompareFunc) (ref : Int) (mask : Nat) (w : World) : World :=
  let w := emit (.glStencilFunc f ref mask) w
  { w with gl := { w.gl with stencilFunc := f, stencilRef := ref, stencilMask := mask } }

@[simp]
def glStencilOp (sfail zfail zpass : StencilAction) (w : World) : World :=
  let w := emit (.glStencilOp sfail zfail zpass) w
  { w with gl := { w.gl with stencilFail := sfail, stencilZFail := zfail, stencilZPass := zpass } }

@[simp]
def glColorMask (r g b a : Bool) (w : World) : World :=
  let w := emit (.glColorMask r g b a) w
  { w with gl := { w.gl with colorMaskR := r, colorMaskG := g, colorMaskB := b, colorMaskA := a } }

@[simp]
def glDepthFunc (f : CompareFunc) (w : World) : World :=
  let w := emit (.glDepthFunc f) w
  { w with gl := { w.gl with depthFunc := f } }

@[simp]
def glDepthMask (flag : Bool) (w : World) : World :=
  let w := emit (.glDepthMask flag) w
  { w with gl := { w.gl with depthMask := flag } }

@[simp]
def glDepthRange (near far : Nat) (w : World) : World :=
  let w := emit (.glDepthRange near far) w
  { w with gl := { w.gl with depthRangeNear := near, depthRangeFar := far } }

/-- Set one capability bit of the device state. -/
@[simp]
def setCapability (cap : Capability) (flag : Bool) (g : GLState) : GLState :=
  match cap with
  | .GL_DEPTH_TEST => { g with depthTest := flag }
  | .GL_MULTISAMPLE => { g with multisample := flag }

/-- Read one capability bit of the device state. -/
@[simp]
def getCapability (cap : Capability) (g : GLState) : Bool :=
  match cap with
  | .GL_DEPTH_TEST => g.depthTest
  | .GL_MULTISAMPLE => g.multisample

@[simp]
def glEnable (cap : Capability) (w : World) : World :=
  let w := emit (.glEnable cap) w
  { w with gl := setCapability cap true w.gl }

@[simp]
def glDisable (cap : Capability) (w : World) : World :=
  let w := emit (.glDisable cap) w
  { w with gl := setCapability cap false w.gl }

@[simp]
def EnableTexture (flag : Bool) (w : World) : World :=
  let w := emit (.EnableTexture flag) w
  { w with gl := { w.gl with textureEnabled := flag } }

@[simp]
def SetEffect (eff : Effect) (w : World) : World :=
  let w := emit (.SetEffect eff) w
  { w with gl := { w.gl with effect := eff } }

@[simp]
def BlendFunc (src dst : BlendFactor) (w : World) : World :=
  let w := emit (.BlendFunc src dst) w
  { w with gl := { w.gl with blendSrc := src, blendDst := dst } }

@[simp]
def BlendEquation (eq : BlendEq) (w : World) : World :=
  let w := emit (.BlendEquation eq) w
  { w with gl := { w.gl with blendEquation := eq } }

/-- The call `GLRenderer->mVBO->RenderArray(mode, offset, count)`. -/
@[simp]
def RenderArray (mode : PrimMode) (offset count : Nat) (w : World) : World :=
  emit (.RenderArray mode offset count) w

/-! ## Portal objects -/

/-- One boundary segment of a portal: the vertex range made by the tessellation. -/
structure GLWall where
  vertindex : Nat
  vertcount : Nat
  deriving DecidableEq, Repr

/-- The fields of `GLPortal` the code below uses.  `NeedDepthBuffer` and `NeedCap`
are the results of the virtual methods of that name, `self` is the address of the
object (`this`). -/
structure GLPortal where
  self : Nat
  lines : List GLWall
  mPrimIndices : List Nat
  savedvisibility : Nat
  NeedDepthBuffer : Bool
  NeedCap : Bool
  deriving DecidableEq, Repr

/-- Fixed vertex-buffer indices of `FFlatVertexBuffer`; their values are declared
outside this file, so they are parameters. -/
structure FlatVertexIndices where
  FULLSCREEN_INDEX : Nat
  STENCILTOP_INDEX : Nat
  STENCILBOTTOM_INDEX : Nat
  deriving DecidableEq, Repr

/-! ## `GLPortal::ClearScreen` (lines 66-81) -/

def ClearScreen (fvb : FlatVertexIndices) (w : World) : World :=
  let w := emit .ClearScreen w
  let w := emit (.glIsEnabled .GL_MULTISAMPLE) w
  let multi := getCapability .GL_MULTISAMPLE w.gl
  let w := emit .Set2D w
  let w := EnableTexture false w
  let w := emit (.Apply none) w
  let w := glDisable .GL_MULTISAMPLE w
  let w := glDisable .GL_DEPTH_TEST w
  let w := emit (.glDrawArrays .GL_TRIANGLE_STRIP fvb.FULLSCREEN_INDEX 4) w
  let w := glEnable .GL_DEPTH_TEST w
  if multi then glEnable .GL_MULTISAMPLE w else w

/-! ## `GLPortal::DrawPortalStencil` (lines 88-113) -/

/-- The loop of lines 94-98: `i` runs over the segments in order and writes the
slots `2*i` and `2*i+1`. -/
def fillPrimIndices : List GLWall → Nat → List Nat → List Nat
  | [], _, arr => arr
  | l :: rest, i, arr =>
      fillPrimIndices rest (i + 1) ((arr.set (i * 2) l.vertindex).set (i * 2 + 1) l.vertcount)

/-- The loop of lines 101-104: `i` steps by two while `i < mPrimIndices.Size()`.
The first argument bounds the number of iterations; `mPrimIndices.length` is enough
because `i` grows on every iteration.  A read past the end of the array yields 0; the
cache built by lines 92-98 has even length, so no such read happens. -/
def renderPrimIndices (prims : List Nat) : Nat → Nat → World → World
  | 0, _, w => w
  | fuel + 1, i, w =>
      if i < prims.length then
        renderPrimIndices prims fuel (i + 2)
          (RenderArray .GL_TRIANGLE_FAN (prims.getD i 0) (prims.getD (i + 1) 0) w)
      else w

/-- Lines 90-99: build the cached range list when it is still empty.  `Resize` hands
out `2 * lines.Size()` slots (modelled as zeros), all of which the loop overwrites. -/
def cachePrimIndices (p : GLPortal) : GLPortal :=
  if p.mPrimIndices.length = 0 then
    { p with mPrimIndices :=
        fillPrimIndices p.lines 0 (List.replicate (2 * p.lines.length) 0) }
  else p

/-- The test `NeedCap() && lines.Size() > 1` of line 105. -/
def hasCap (p : GLPortal) : Bool := p.NeedCap && decide (p.lines.length > 1)

def DrawPortalStencil (fvb : FlatVertexIndices) (this_ : GLPortal) (pass : StencilPass)
    (w : World) : GLPortal × World :=
  let w := emit (.DrawPortalStencil pass) w
  let p := cachePrimIndices this_
  let w := emit (.Apply none) w
  let w := renderPrimIndices p.mPrimIndices p.mPrimIndices.length 0 w
  if hasCap p then
    let w :=
      if pass = .STP_AllInOne then glDepthMask false w
      else if pass = .STP_DepthRestore then glDepthRange 1 1 w
      else w
    let w := RenderArray .GL_TRIANGLE_FAN fvb.STENCILTOP_INDEX 4 w
    let w := RenderArray .GL_TRIANGLE_FAN fvb.STENCILBOTTOM_INDEX 4 w
    let w := if pass = .STP_DepthRestore then glDepthRange 0 1 w else w
    (p, w)
  else (p, w)

/-! ## Draw contexts -/

/-- The fields of `HWDrawInfo` / `FDrawInfo` the portal code touches.
`camera` is `Viewpoint.camera` (an actor address, `none` for `nullptr`),
`mCurrentPortal` the address of the owning portal, `outer` the enclosing context. -/
inductive HWDrawInfo where
  | mk (camera : Option Nat) (VPUniforms : Nat) (vpIndex : Nat)
      (mCurrentPortal : Option Nat) (outer : Option HWDrawInfo)
  deriving Repr

def HWDrawInfo.camera : HWDrawInfo → Option Nat
  | .mk c _ _ _ _ => c

def HWDrawInfo.VPUniforms : HWDrawInfo → Nat
  | .mk _ u _ _ _ => u

def HWDrawInfo.vpIndex : HWDrawInfo → Nat
  | .mk _ _ i _ _ => i

def HWDrawInfo.mCurrentPortal : HWDrawInfo → Option Nat
  | .mk _ _ _ m _ => m

def HWDrawInfo.outer : HWDrawInfo → Option HWDrawInfo
  | .mk _ _ _ _ o => o

/-- The assignment `di->mCurrentPortal = portal`. -/
def HWDrawInfo.setCurrentPortal (di : HWDrawInfo) (portal : Nat) : HWDrawInfo :=
  .mk di.camera di.VPUniforms di.vpIndex (some portal) di.outer

/-- Modelled from the spec: `FDrawInfo::StartDrawInfo` is not in this file.  §4.2
step 6: "Create a new draw/view context derived from the outer one (same
camera/uniforms)"; the new context is not yet owned by a portal and remembers the
context it was derived from. -/
@[simp]
def StartDrawInfo (outer_di : HWDrawInfo) (w : World) : HWDrawInfo × World :=
  (.mk outer_di.camera outer_di.VPUniforms 0 none (some outer_di), emit .StartDrawInfo w)

/-- Modelled from the spec: `FDrawInfo::EndDrawInfo` is not in this file.  §4.2 End
step 1: "Finalize and detach the child draw context"; the call hands back the
enclosing context (`none` when there is none). -/
@[simp]
def EndDrawInfo (di : HWDrawInfo) (w : World) : Option HWDrawInfo × World :=
  (di.outer, emit .EndDrawInfo w)

/-! ## Configuration read by the portal code -/

/-- Console variables, constants and external functions the code reads.
`RF_MAYBEINVISIBLE` is the flag mask of `actor.h`, `skyflatnum` the sky flat,
`ValidateTexture` stands for `FMaterial::ValidateTexture(tex, false, true)`. -/
structure Env where
  gl_portals : Bool
  gl_noquery : Bool
  RF_MAYBEINVISIBLE : Nat
  fvb : FlatVertexIndices
  skyflatnum : Nat
  ValidateTexture : Nat → Option Nat

/-- The complement `~x` of a 32 bit flag word. -/
def complement32 (x : Nat) : Nat := allBits ^^^ (x % 2 ^ 32)

/-! ## `GLPortal::Start` (lines 122-221) -/

/-- What `Start` hands back: the return value, `*pDi`, the portal object and the
world. -/
structure StartResult where
  ok : Bool
  pDi : Option HWDrawInfo
  portal : GLPortal
  world : World

/-- The method `GLPortal::Start`.  `queryResult` is the sample count the device
reports for the occlusion query (read only when the query is issued). -/
def Start (env : Env) (queryResult : Nat) (this_ : GLPortal) (usestencil doquery : Bool)
    (outer_di : HWDrawInfo) (w : World) : StartResult := Id.run do
  let mut w := w
  let mut p := this_
  let mut doquery := doquery
  -- *pDi = nullptr; rendered_portals++;
  w := { w with rendered_portals := w.rendered_portals + 1 }
  if usestencil then
    if !env.gl_portals then
      return ⟨false, none, p, w⟩
    -- Create stencil
    w := glStencilFunc .GL_EQUAL w.recursion allBits w
    w := glStencilOp .GL_KEEP .GL_KEEP .GL_INCR w
    w := glColorMask false false false false w
    w := SetEffect .EFF_STENCIL w
    w := EnableTexture false w
    w := glDepthFunc .GL_LESS w
    if p.NeedDepthBuffer then
      w := glDepthMask false w
      if !p.NeedDepthBuffer then doquery := false
      else if env.gl_noquery then doquery := false
      if doquery then w := emit .glBeginQuery w
      (p, w) := DrawPortalStencil env.fvb p .STP_Stencil w
      if doquery then w := emit .glEndQuery w
      -- Clear Z-buffer
      w := glStencilFunc .GL_EQUAL (w.recursion + 1) allBits w
      w := glStencilOp .GL_KEEP .GL_KEEP .GL_KEEP w
      w := glDepthMask true w
      w := glDepthRange 1 1 w
      w := glDepthFunc .GL_ALWAYS w
      (p, w) := DrawPortalStencil env.fvb p .STP_DepthClear w
      -- set normal drawing mode
      w := EnableTexture true w
      w := glDepthFunc .GL_LESS w
      w := glColorMask true true true true w
      w := SetEffect .EFF_NONE w
      w := glDepthRange 0 1 w
      let mut sampleCount := 1
      if doquery then
        w := emit .glGetQueryObjectuiv w
        sampleCount := queryResult
      if sampleCount = 0 then
        -- restore default stencil op.
        w := glStencilOp .GL_KEEP .GL_KEEP .GL_KEEP w
        w := glStencilFunc .GL_EQUAL w.recursion allBits w
        return ⟨false, none, p, w⟩
    else
      w := glDepthMask true w
      (p, w) := DrawPortalStencil env.fvb p .STP_AllInOne w
      w := glStencilFunc .GL_EQUAL (w.recursion + 1) allBits w
      w := glStencilOp .GL_KEEP .GL_KEEP .GL_KEEP w
      w := EnableTexture true w
      w := glColorMask true true true true w
      w := SetEffect .EFF_NONE w
      w := glDisable .GL_DEPTH_TEST w
      w := glDepthMask false w
    w := { w with recursion := w.recursion + 1 }
  else
    if !p.NeedDepthBuffer then
      w := glDepthMask false w
      w := glDisable .GL_DEPTH_TEST w
  let (di, w1) := StartDrawInfo outer_di w
  w := w1
  let di := di.setCurrentPortal p.self
  -- save viewpoint
  p := { p with savedvisibility :=
    match outer_di.camera with
    | some camera => w.renderflags camera &&& env.RF_MAYBEINVISIBLE
    | none => 0 }
  return ⟨true, some di, p, w⟩

/-! ## `GLPortal::End` (lines 229-312) -/

/-- The assignment of lines 242 and 292:
`camera->renderflags = (camera->renderflags & ~RF_MAYBEINVISIBLE) | savedvisibility`
when the camera is not null. -/
def restoreVisibility (env : Env) (p : GLPortal) (camera : Option Nat) (w : World) : World :=
  match camera with
  | some c =>
      { w with renderflags := fun a =>
          if a = c then (w.renderflags c &&& complement32 env.RF_MAYBEINVISIBLE) ||| p.savedvisibility
          else w.renderflags a }
  | none => w

/-- The method `GLPortal::End`.  The result is `none` when `EndDrawInfo` hands back
no enclosing context, which the code dereferences. -/
def End (env : Env) (this_ : GLPortal) (di : HWDrawInfo) (usestencil : Bool) (w : World) :
    Option (GLPortal × World) :=
  let p := this_
  let needdepth := p.NeedDepthBuffer
  match EndDrawInfo di w with
  | (none, _) => none
  | (some di, w) => some <| Id.run do
    let mut w := w
    let mut p := p
    w := emit (.BindViewpoint di.vpIndex) w
    if usestencil then
      -- Restore the old view
      w := restoreVisibility env p di.camera w
      w := glColorMask false false false false w
      w := SetEffect .EFF_NONE w
      w := EnableTexture false w
      if needdepth then
        -- first step: reset the depth buffer to max. depth
        w := glDepthRange 1 1 w
        w := glDepthFunc .GL_ALWAYS w
        (p, w) := DrawPortalStencil env.fvb p .STP_DepthClear w
      else
        w := glEnable .GL_DEPTH_TEST w
      -- second step: restore the depth buffer to the previous values and reset the stencil
      w := glDepthFunc .GL_LEQUAL w
      w := glDepthRange 0 1 w
      w := glStencilOp .GL_KEEP .GL_KEEP .GL_DECR w
      w := glStencilFunc .GL_EQUAL w.recursion allBits w
      (p, w) := DrawPortalStencil env.fvb p .STP_DepthRestore w
      w := glDepthFunc .GL_LESS w
      w := EnableTexture true w
      w := SetEffect .EFF_NONE w
      w := glColorMask true true true true w
      w := { w with recursion := w.recursion - 1 }
      -- restore old stencil op.
      w := glStencilOp .GL_KEEP .GL_KEEP .GL_KEEP w
      w := glStencilFunc .GL_EQUAL w.recursion allBits w
    else
      if needdepth then
        w := emit .glClearDepthBuffer w
      else
        w := glEnable .GL_DEPTH_TEST w
        w := glDepthMask true w
      -- Restore the old view
      w := restoreVisibility env p di.camera w
      w := emit .ResetColor w
      w := glDepthFunc .GL_LEQUAL w
      w := glDepthRange 0 1 w
      w := glColorMask false false false true w
      w := SetEffect .EFF_STENCIL w
      w := EnableTexture false w
      w := BlendFunc .GL_ONE .GL_ZERO w
      w := BlendEquation .GL_FUNC_ADD w
      (p, w) := DrawPortalStencil env.fvb p .STP_DepthRestore w
      w := SetEffect .EFF_NONE w
      w := EnableTexture true w
      w := glColorMask true true true true w
      w := glDepthFunc .GL_LESS w
    return (p, w)

/-! ## `GLHorizonPortal::DrawContents` (lines 337-366) -/

/-- The plane descriptor `GLHorizonInfo`; only the texture of its plane is read. -/
structure GLHorizonInfo where
  texture : Nat
  deriving DecidableEq, Repr

/-- The fields of `GLHorizonPortal` used by its content draw. -/
structure GLHorizonPortal where
  origin : GLHorizonInfo
  voffset : Nat
  vcount : Nat
  attrindex : Nat
  deriving DecidableEq, Repr

/-- The loop of lines 361-364: `i` steps by four while `i < vcount`.  The first
argument bounds the number of iterations; `vcount` is enough. -/
def renderHorizonStrips (voffset vcount : Nat) : Nat → Nat → World → World
  | 0, _, w => w
  | fuel + 1, i, w =>
      if i < vcount then
        renderHorizonStrips voffset vcount fuel (i + 4)
          (RenderArray .GL_TRIANGLE_STRIP (voffset + i) 4 w)
      else w

def GLHorizonPortal.DrawContents (env : Env) (this_ : GLHorizonPortal) (w : World) : World :=
  let w := emit (.HorizonDrawContents this_.origin.texture this_.voffset this_.vcount
    this_.attrindex) w
  match env.ValidateTexture this_.origin.texture with
  | none => ClearScreen env.fvb w
  | some gltexture =>
      let w := emit .SetCameraPos w
      let w := emit (.SetMaterial gltexture) w
      let w := BlendFunc .GL_ONE .GL_ZERO w
      let w := emit (.Apply (some this_.attrindex)) w
      let w := renderHorizonStrips this_.voffset this_.vcount this_.vcount 0 w
      RenderArray .GL_TRIANGLE_STRIP (this_.voffset + this_.vcount) 10 w

/-! ## `GLEEHorizonPortal::DrawContents` (lines 417-446) -/

/-- The fields of `sector_t` read by the composite portal. -/
structure sector_t where
  floorTexture : Nat
  ceilingTexture : Nat
  sky : Nat
  deriving DecidableEq, Repr

/-- The fields of `GLEEHorizonPortal`: the origin sector, and `horz[k]`,
`voffset[k]`, `vcount[k]`, `attrs[k]` for `k = 0` (ceiling) and `k = 1` (floor). -/
structure GLEEHorizonPortal where
  sector : sector_t
  horz0 : GLHorizonInfo
  horz1 : GLHorizonInfo
  voffset0 : Nat
  voffset1 : Nat
  vcount0 : Nat
  vcount1 : Nat
  attrs0 : Nat
  attrs1 : Nat
  deriving DecidableEq, Repr

/-- Modelled from the spec: `GLSkyPortal::DrawContents` is not in this file (§4.3:
"external collaborator variant, same contract"); only its invocation is recorded, with
the sky of the `GLSkyInfo` it was built from (`skyinfo.init(sector->sky, 0)`). -/
def GLSkyPortal.DrawContents (sky : Nat) (w : World) : World :=
  emit (.SkyDrawContents sky) w

def GLEEHorizonPortal.DrawContents (env : Env) (this_ : GLEEHorizonPortal) (w : World) : World :=
  let sector := this_.sector
  let w :=
    if sector.floorTexture = env.skyflatnum ∨ sector.ceilingTexture = env.skyflatnum then
      GLSkyPortal.DrawContents sector.sky w
    else w
  let w :=
    if sector.ceilingTexture ≠ env.skyflatnum then
      let ceil : GLHorizonPortal := ⟨this_.horz0, this_.voffset0, this_.vcount0, this_.attrs0⟩
      ceil.DrawContents env w
    else w
  if sector.floorTexture ≠ env.skyflatnum then
    let floor : GLHorizonPortal := ⟨this_.horz1, this_.voffset1, this_.vcount1, this_.attrs1⟩
    let w := floor.DrawContents env w
    floor.DrawContents env w
  else w

/-! ## Reading the log -/

/-- The log entries written between two worlds. -/
def traceSince (before after : World) : List Event :=
  after.trace.drop before.trace.length

/-- The calls issued between two worlds, in order. -/
def callsSince (before after : World) : List Call :=
  (traceSince before after).map Event.call

/-- The calls `RenderArray(GL_TRIANGLE_FAN, ..)`. -/
def isFanDraw : Call → Bool
  | .RenderArray .GL_TRIANGLE_FAN _ _ => true
  | _ => false

/-- The geometry submissions `mVBO->RenderArray(..)`. -/
def isRenderArray : Call → Bool
  | .RenderArray _ _ _ => true
  | _ => false

/-- Every call that rasterises primitives: `RenderArray` and `glDrawArrays`. -/
def isDraw : Call → Bool
  | .RenderArray _ _ _ => true
  | .glDrawArrays _ _ _ => true
  | _ => false

/-- Entries of `GLSkyPortal::DrawContents`. -/
def isSkyDrawContents : Call → Bool
  | .SkyDrawContents _ => true
  | _ => false

/-- Entries of `GLHorizonPortal::DrawContents`. -/
def isHorizonDrawContents : Call → Bool
  | .HorizonDrawContents _ _ _ _ => true
  | _ => false

/-- Stamp a list of calls with one device state and counter value. -/
def stamp (g : GLState) (r : Int) (cs : List Call) : List Event :=
  cs.map (fun c => ⟨c, g, r⟩)

/-! ## Closed forms used in the proofs -/

/-- The flat list `[l_0.vertindex, l_0.vertcount, ..., l_{n-1}.vertindex, l_{n-1}.vertcount]`. -/
def flatRanges (lines : List GLWall) : List Nat :=
  lines.flatMap (fun l => [l.vertindex, l.vertcount])

/-- The calls made by `renderPrimIndices`. -/
def renderCalls (prims : List Nat) : Nat → Nat → List Call
  | 0, _ => []
  | fuel + 1, i =>
      if i < prims.length then
        .RenderArray .GL_TRIANGLE_FAN (prims.getD i 0) (prims.getD (i + 1) 0) ::
          renderCalls prims fuel (i + 2)
      else []

/-- The calls made by `renderHorizonStrips`. -/
def stripCalls (voffset vcount : Nat) : Nat → Nat → List Call
  | 0, _ => []
  | fuel + 1, i =>
      if i < vcount then
        .RenderArray .GL_TRIANGLE_STRIP (voffset + i) 4 :: stripCalls voffset vcount fuel (i + 4)
      else []

/-- The device state `DrawPortalStencil` leaves behind. -/
def dpsState (p : GLPortal) (pass : StencilPass) (g : GLState) : GLState :=
  if hasCap p then
    match pass with
    | .STP_AllInOne => { g with depthMask := false }
    | .STP_DepthRestore => { g with depthRangeNear := 0, depthRangeFar := 1 }
    | _ => g
  else g

/-- The log entries of the cap part of `DrawPortalStencil` (lines 107-111). -/
def capEvents (fvb : FlatVertexIndices) (pass : StencilPass) (g : GLState) (r : Int) :
    List Event :=
  match pass with
  | .STP_AllInOne =>
      [⟨.glDepthMask false, g, r⟩,
       ⟨.RenderArray .GL_TRIANGLE_FAN fvb.STENCILTOP_INDEX 4, { g with depthMask := false }, r⟩,
       ⟨.RenderArray .GL_TRIANGLE_FAN fvb.STENCILBOTTOM_INDEX 4, { g with depthMask := false }, r⟩]
  | .STP_DepthRestore =>
      [⟨.glDepthRange 1 1, g, r⟩,
       ⟨.RenderArray .GL_TRIANGLE_FAN fvb.STENCILTOP_INDEX 4,
          { g with depthRangeNear := 1, depthRangeFar := 1 }, r⟩,
       ⟨.RenderArray .GL_TRIANGLE_FAN fvb.STENCILBOTTOM_INDEX 4,
          { g with depthRangeNear := 1, depthRangeFar := 1 }, r⟩,
       ⟨.glDepthRange 0 1, { g with depthRangeNear := 1, depthRangeFar := 1 }, r⟩]
  | _ =>
      [⟨.RenderArray .GL_TRIANGLE_FAN fvb.STENCILTOP_INDEX 4, g, r⟩,
       ⟨.RenderArray .GL_TRIANGLE_FAN fvb.STENCILBOTTOM_INDEX 4, g, r⟩]

/-- The log entries of one `DrawPortalStencil` call issued in state `g` at counter `r`. -/
def dpsEvents (fvb : FlatVertexIndices) (p : GLPortal) (pass : StencilPass) (g : GLState)
    (r : Int) : List Event :=
  [⟨.DrawPortalStencil pass, g, r⟩, ⟨.Apply none, g, r⟩] ++
    stamp g r (renderCalls (cachePrimIndices p).mPrimIndices
      (cachePrimIndices p).mPrimIndices.length 0) ++
    (if hasCap p then capEvents fvb pass g r else [])

/-- The normal drawing state named by the lifecycle: depth test and depth writes on, depth
function `GL_LESS`, depth range `[0,1]`, full colour mask, texturing on, effect none. -/
def normalDrawing (g : GLState) : Prop :=
  g.depthTest = true ∧ g.depthMask = true ∧ g.depthFunc = .GL_LESS ∧
  g.depthRangeNear = 0 ∧ g.depthRangeFar = 1 ∧
  g.colorMaskR = true ∧ g.colorMaskG = true ∧ g.colorMaskB = true ∧ g.colorMaskA = true ∧
  g.textureEnabled = true ∧ g.effect = .EFF_NONE

instance (g : GLState) : Decidable (normalDrawing g) := by
  unfold normalDrawing; infer_instance

/-- The calls of the cap part of `DrawPortalStencil` (lines 107-111). -/
def capCalls (fvb : FlatVertexIndices) (pass : StencilPass) : List Call :=
  match pass with
  | .STP_AllInOne =>
      [.glDepthMask false, .RenderArray .GL_TRIANGLE_FAN fvb.STENCILTOP_INDEX 4,
       .RenderArray .GL_TRIANGLE_FAN fvb.STENCILBOTTOM_INDEX 4]
  | .STP_DepthRestore =>
      [.glDepthRange 1 1, .RenderArray .GL_TRIANGLE_FAN fvb.STENCILTOP_INDEX 4,
       .RenderArray .GL_TRIANGLE_FAN fvb.STENCILBOTTOM_INDEX 4, .glDepthRange 0 1]
  | _ =>
      [.RenderArray .GL_TRIANGLE_FAN fvb.STENCILTOP_INDEX 4,
       .RenderArray .GL_TRIANGLE_FAN fvb.STENCILBOTTOM_INDEX 4]

/-- The calls of one `DrawPortalStencil` call, without the state stamps. -/
def dpsCalls (fvb : FlatVertexIndices) (p : GLPortal) (pass : StencilPass) : List Call :=
  [.DrawPortalStencil pass, .Apply none] ++
    renderCalls (cachePrimIndices p).mPrimIndices (cachePrimIndices p).mPrimIndices.length 0 ++
    (if hasCap p then capCalls fvb pass else [])


/-! ## Concrete inputs -/

/-- A normal drawing state: depth test and depth writes on, depth function `GL_LESS`,
depth range `[0,1]`, full colour mask, texturing on, no effect.  Its stencil test is
`GL_ALWAYS` with operation `(GL_KEEP, GL_KEEP, GL_REPLACE)`. -/
def sampleState : GLState :=
  { stencilFunc := .GL_ALWAYS, stencilRef := 0, stencilMask := allBits,
    stencilFail := .GL_KEEP, stencilZFail := .GL_KEEP, stencilZPass := .GL_REPLACE,
    colorMaskR := true, colorMaskG := true, colorMaskB := true, colorMaskA := true,
    depthFunc := .GL_LESS, depthMask := true, depthRangeNear := 0, depthRangeFar := 1,
    depthTest := true, multisample := true, textureEnabled := true, effect := .EFF_NONE,
    blendSrc := .GL_SRC_ALPHA, blendDst := .GL_ONE_MINUS_SRC_ALPHA,
    blendEquation := .GL_FUNC_ADD }

/-- The same drawing state with the stencil test the portal code itself leaves behind at
recursion depth 0: `GL_EQUAL 0` with operation `(GL_KEEP, GL_KEEP, GL_KEEP)`. -/
def samplePortalState : GLState :=
  { sampleState with stencilFunc := .GL_EQUAL, stencilZPass := .GL_KEEP }

/-- A frame at recursion depth 0 with no portal counted yet; every actor has the render
flags `0x02000001`. -/
def sampleWorld : World :=
  { gl := sampleState, recursion := 0, rendered_portals := 0,
    renderflags := fun _ => 0x02000001, trace := [] }

/-- The frame `sampleWorld` in the state `samplePortalState`. -/
def samplePortalWorld : World :=
  { sampleWorld with gl := samplePortalState }

/-- Portals enabled, occlusion queries allowed, `RF_MAYBEINVISIBLE = 0x02000000`. -/
def sampleEnv : Env :=
  { gl_portals := true, gl_noquery := false, RF_MAYBEINVISIBLE := 0x02000000,
    fvb := ⟨4, 8, 12⟩, skyflatnum := 7, ValidateTexture := fun t => if t = 0 then none else some t }

/-- The configuration `sampleEnv` with `gl_portals` switched off. -/
def sampleEnvDisabled : Env :=
  { sampleEnv with gl_portals := false }

/-- A portal with two boundary segments that needs a depth buffer and a cap. -/
def samplePortal : GLPortal :=
  { self := 1, lines := [⟨100, 4⟩, ⟨104, 6⟩], mPrimIndices := [], savedvisibility := 0,
    NeedDepthBuffer := true, NeedCap := true }

/-- A portal with two boundary segments that needs no depth buffer (a horizon). -/
def sampleHorizon : GLPortal :=
  { samplePortal with self := 2, NeedDepthBuffer := false }

/-- An outermost draw context whose camera is the actor at address 5. -/
def sampleOuter : HWDrawInfo :=
  .mk (some 5) 0 0 none none

/-- The result of starting `samplePortal` on the stencil path in `sampleWorld`; the
occlusion query reports 5 samples. -/
def sampleStarted : StartResult :=
  Start sampleEnv 5 samplePortal true true sampleOuter sampleWorld

/-- A child context of `sampleOuter` whose own viewpoint was moved by content rendering. -/
def sampleChild : HWDrawInfo :=
  .mk (some 9) 0 3 (some 1) (some sampleOuter)

/-- A composite horizon over a sector with sky ceiling (`skyflatnum = 7`), a floor
with texture 3 and sky 11. -/
def sampleEEHorizon : GLEEHorizonPortal :=
  { sector := ⟨3, 7, 11⟩, horz0 := ⟨7⟩, horz1 := ⟨3⟩, voffset0 := 200, voffset1 := 300,
    vcount0 := 8, vcount1 := 8, attrs0 := 0, attrs1 := 1 }

/-! ## Auxiliary lemmas -/

@[simp] theorem cachePrimIndices_NeedCap (p : GLPortal) :
    (cachePrimIndices p).NeedCap = p.NeedCap := by
  unfold cachePrimIndices; split <;> rfl

@[simp] theorem cachePrimIndices_lines (p : GLPortal) :
    (cachePrimIndices p).lines = p.lines := by
  unfold cachePrimIndices; split <;> rfl

@[simp] theorem cachePrimIndices_NeedDepthBuffer (p : GLPortal) :
    (cachePrimIndices p).NeedDepthBuffer = p.NeedDepthBuffer := by
  unfold cachePrimIndices; split <;> rfl

@[simp] theorem cachePrimIndices_self (p : GLPortal) :
    (cachePrimIndices p).self = p.self := by
  unfold cachePrimIndices; split <;> rfl

@[simp] theorem cachePrimIndices_savedvisibility (p : GLPortal) :
    (cachePrimIndices p).savedvisibility = p.savedvisibility := by
  unfold cachePrimIndices; split <;> rfl

@[simp] theorem hasCap_cachePrimIndices (p : GLPortal) :
    hasCap (cachePrimIndices p) = hasCap p := by
  simp [hasCap]

@[simp] theorem dpsState_stencilFunc (p : GLPortal) (pass : StencilPass) (g : GLState) :
    (dpsState p pass g).stencilFunc = g.stencilFunc := by
  unfold dpsState; split
  · cases pass <;> rfl
  · rfl

@[simp] theorem dpsState_stencilRef (p : GLPortal) (pass : StencilPass) (g : GLState) :
    (dpsState p pass g).stencilRef = g.stencilRef := by
  unfold dpsState; split
  · cases pass <;> rfl
  · rfl

@[simp] theorem dpsState_stencilMask (p : GLPortal) (pass : StencilPass) (g : GLState) :
    (dpsState p pass g).stencilMask = g.stencilMask := by
  unfold dpsState; split
  · cases pass <;> rfl
  · rfl

@[simp] theorem dpsState_stencilFail (p : GLPortal) (pass : StencilPass) (g : GLState) :
    (dpsState p pass g).stencilFail = g.stencilFail := by
  unfold dpsState; split
  · cases pass <;> rfl
  · rfl

@[simp] theorem dpsState_stencilZFail (p : GLPortal) (pass : StencilPass) (g : GLState) :
    (dpsState p pass g).stencilZFail = g.stencilZFail := by
  unfold dpsState; split
  · cases pass <;> rfl
  · rfl

@[simp] theorem dpsState_stencilZPass (p : GLPortal) (pass : StencilPass) (g : GLState) :
    (dpsState p pass g).stencilZPass = g.stencilZPass := by
  unfold dpsState; split
  · cases pass <;> rfl
  · rfl

@[simp] theorem dpsState_colorMaskR (p : GLPortal) (pass : StencilPass) (g : GLState) :
    (dpsState p pass g).colorMaskR = g.colorMaskR := by
  unfold dpsState; split
  · cases pass <;> rfl
  · rfl

@[simp] theorem dpsState_colorMaskG (p : GLPortal) (pass : StencilPass) (g : GLState) :
    (dpsState p pass g).colorMaskG = g.colorMaskG := by
  unfold dpsState; split
  · cases pass <;> rfl
  · rfl

@[simp] theorem dpsState_colorMaskB (p : GLPortal) (pass : StencilPass) (g : GLState) :
    (dpsState p pass g).colorMaskB = g.colorMaskB := by
  unfold dpsState; split
  · cases pass <;> rfl
  · rfl

@[simp] theorem dpsState_colorMaskA (p : GLPortal) (pass : StencilPass) (g : GLState) :
    (dpsState p pass g).colorMaskA = g.colorMaskA := by
  unfold dpsState; split
  · cases pass <;> rfl
  · rfl

@[simp] theorem dpsState_depthFunc (p : GLPortal) (pass : StencilPass) (g : GLState) :
    (dpsState p pass g).depthFunc = g.depthFunc := by
  unfold dpsState; split
  · cases pass <;> rfl
  · rfl

@[simp] theorem dpsState_depthTest (p : GLPortal) (pass : StencilPass) (g : GLState) :
    (dpsState p pass g).depthTest = g.depthTest := by
  unfold dpsState; split
  · cases pass <;> rfl
  · rfl

@[simp] theorem dpsState_multisample (p : GLPortal) (pass : StencilPass) (g : GLState) :
    (dpsState p pass g).multisample = g.multisample := by
  unfold dpsState; split
  · cases pass <;> rfl
  · rfl

@[simp] theorem dpsState_textureEnabled (p : GLPortal) (pass : StencilPass) (g : GLState) :
    (dpsState p pass g).textureEnabled = g.textureEnabled := by
  unfold dpsState; split
  · cases pass <;> rfl
  · rfl

@[simp] theorem dpsState_effect (p : GLPortal) (pass : StencilPass) (g : GLState) :
    (dpsState p pass g).effect = g.effect := by
  unfold dpsState; split
  · cases pass <;> rfl
  · rfl

@[simp] theorem dpsState_blendSrc (p : GLPortal) (pass : StencilPass) (g : GLState) :
    (dpsState p pass g).blendSrc = g.blendSrc := by
  unfold dpsState; split
  · cases pass <;> rfl
  · rfl

@[simp] theorem dpsState_blendDst (p : GLPortal) (pass : StencilPass) (g : GLState) :
    (dpsState p pass g).blendDst = g.blendDst := by
  unfold dpsState; split
  · cases pass <;> rfl
  · rfl

@[simp] theorem dpsState_blendEquation (p : GLPortal) (pass : StencilPass) (g : GLState) :
    (dpsState p pass g).blendEquation = g.blendEquation := by
  unfold dpsState; split
  · cases pass <;> rfl
  · rfl

@[simp] theorem dpsState_depthMask (p : GLPortal) (pass : StencilPass) (g : GLState) :
    (dpsState p pass g).depthMask =
      if hasCap p = true ∧ pass = .STP_AllInOne then false else g.depthMask := by
  unfold dpsState; cases hasCap p <;> cases pass <;> simp

@[simp] theorem dpsState_depthRangeNear (p : GLPortal) (pass : StencilPass) (g : GLState) :
    (dpsState p pass g).depthRangeNear =
      if hasCap p = true ∧ pass = .STP_DepthRestore then 0 else g.depthRangeNear := by
  unfold dpsState; cases hasCap p <;> cases pass <;> simp

@[simp] theorem dpsState_depthRangeFar (p : GLPortal) (pass : StencilPass) (g : GLState) :
    (dpsState p pass g).depthRangeFar =
      if hasCap p = true ∧ pass = .STP_DepthRestore then 1 else g.depthRangeFar := by
  unfold dpsState; cases hasCap p <;> cases pass <;> simp

@[simp] theorem restoreVisibility_gl (env : Env) (p : GLPortal) (c : Option Nat) (w : World) :
    (restoreVisibility env p c w).gl = w.gl := by
  cases c <;> rfl

@[simp] theorem restoreVisibility_recursion (env : Env) (p : GLPortal) (c : Option Nat)
    (w : World) : (restoreVisibility env p c w).recursion = w.recursion := by
  cases c <;> rfl

@[simp] theorem restoreVisibility_rendered_portals (env : Env) (p : GLPortal) (c : Option Nat)
    (w : World) : (restoreVisibility env p c w).rendered_portals = w.rendered_portals := by
  cases c <;> rfl

@[simp] theorem restoreVisibility_trace (env : Env) (p : GLPortal) (c : Option Nat)
    (w : World) : (restoreVisibility env p c w).trace = w.trace := by
  cases c <;> rfl

theorem renderPrimIndices_eq (prims : List Nat) (fuel i : Nat) (w : World) :
    renderPrimIndices prims fuel i w =
      { w with trace := w.trace ++ stamp w.gl w.recursion (renderCalls prims fuel i) } := by
  induction fuel generalizing i w with
  | zero => simp [renderPrimIndices, renderCalls, stamp]
  | succ n ih =>
    simp only [renderPrimIndices, renderCalls]
    split
    · rw [ih]; simp [RenderArray, emit, stamp]
    · simp [stamp]

theorem renderHorizonStrips_eq (voffset vcount fuel i : Nat) (w : World) :
    renderHorizonStrips voffset vcount fuel i w =
      { w with trace := w.trace ++ stamp w.gl w.recursion (stripCalls voffset vcount fuel i) } := by
  induction fuel generalizing i w with
  | zero => simp [renderHorizonStrips, stripCalls, stamp]
  | succ n ih =>
    simp only [renderHorizonStrips, stripCalls]
    split
    · rw [ih]; simp [RenderArray, emit, stamp]
    · simp [stamp]

theorem fillPrimIndices_eq (ls : List GLWall) (i : Nat) (pre : List Nat)
    (hpre : pre.length = i * 2) :
    fillPrimIndices ls i (pre ++ List.replicate (2 * ls.length) 0) = pre ++ flatRanges ls := by
  induction ls generalizing i pre with
  | nil => simp [fillPrimIndices, flatRanges]
  | cons l rest ih =>
    have h2 : 2 * (l :: rest).length = (2 * rest.length + 1) + 1 := by simp; ring
    rw [h2, List.replicate_succ, List.replicate_succ]
    simp only [fillPrimIndices]
    have e1 : (pre ++ 0 :: 0 :: List.replicate (2 * rest.length) 0).set (i * 2) l.vertindex
        = pre ++ l.vertindex :: 0 :: List.replicate (2 * rest.length) 0 := by
      rw [List.set_append_right _ _ (by omega)]; simp [hpre]
    have e2 : (pre ++ l.vertindex :: 0 :: List.replicate (2 * rest.length) 0).set (i * 2 + 1)
          l.vertcount
        = (pre ++ [l.vertindex, l.vertcount]) ++ List.replicate (2 * rest.length) 0 := by
      rw [List.set_append_right _ _ (by omega)]; simp [hpre]
    rw [e1, e2, ih (i + 1) _ (by simp [hpre]; ring)]
    simp [flatRanges]

theorem renderCalls_flat (ls : List GLWall) (pre : List Nat) (fuel : Nat)
    (hfuel : ls.length ≤ fuel) :
    renderCalls (pre ++ flatRanges ls) fuel pre.length =
      ls.map (fun l => Call.RenderArray .GL_TRIANGLE_FAN l.vertindex l.vertcount) := by
  induction ls generalizing pre fuel with
  | nil =>
    cases fuel <;> simp [renderCalls, flatRanges]
  | cons l rest ih =>
    obtain ⟨n, rfl⟩ : ∃ n, fuel = n + 1 := ⟨fuel - 1, by simp at hfuel; omega⟩
    have hflat : pre ++ flatRanges (l :: rest) =
        (pre ++ [l.vertindex, l.vertcount]) ++ flatRanges rest := by
      simp [flatRanges]
    have hlen : pre.length < (pre ++ flatRanges (l :: rest)).length := by
      simp [flatRanges]
    simp only [renderCalls, if_pos hlen, List.map_cons]
    congr 1
    · simp [flatRanges, List.getD_eq_getElem?_getD]
      constructor
      · rw [List.getElem_append_right (by omega)]; simp
      · rw [List.getElem_append_right (by omega)]; simp
    · rw [hflat]
      have := ih (pre ++ [l.vertindex, l.vertcount]) n (by simp at hfuel; omega)
      simpa using this

theorem DrawPortalStencil_eq (fvb : FlatVertexIndices) (p : GLPortal) (pass : StencilPass)
    (w : World) :
    DrawPortalStencil fvb p pass w =
      (cachePrimIndices p,
        { w with gl := dpsState p pass w.gl,
                 trace := w.trace ++ dpsEvents fvb p pass w.gl w.recursion }) := by
  unfold DrawPortalStencil
  simp only [renderPrimIndices_eq]
  by_cases hc : hasCap p
  · cases pass <;>
      simp [hc, dpsState, dpsEvents, capEvents, emit, stamp, glDepthMask,
        glDepthRange, RenderArray]
  · simp [hc, dpsState, dpsEvents, emit, stamp]

/-! ## Claims about `GLPortal::Start` and `GLPortal::End` -/

/-- C1: a successful `Start` followed, after balanced content rendering, by `End` with the
same `usestencil` flag leaves the recursion counter at its value before `Start`; `Start`
adds exactly 1 and `End` subtracts exactly 1 when `usestencil` is true, and neither changes
the counter when it is false. -/
theorem C1_recursion_balanced (env : Env) (queryResult : Nat) (p : GLPortal)
    (usestencil doquery : Bool) (outer_di : HWDrawInfo) (w : World)
    (hok : (Start env queryResult p usestencil doquery outer_di w).ok = true)
    (content : World)
    (hbal : content.recursion =
      (Start env queryResult p usestencil doquery outer_di w).world.recursion)
    (di enclosing : HWDrawInfo) (hdi : di.outer = some enclosing) :
    ∃ res, End env (Start env queryResult p usestencil doquery outer_di w).portal di
        usestencil content = some res ∧
      (Start env queryResult p usestencil doquery outer_di w).world.recursion =
        w.recursion + (if usestencil then 1 else 0) ∧
      res.2.recursion = content.recursion - (if usestencil then 1 else 0) ∧
      res.2.recursion = w.recursion := by
  have hstart : (Start env queryResult p usestencil doquery outer_di w).world.recursion =
      w.recursion + (if usestencil then 1 else 0) := by
    revert hok
    cases usestencil <;> cases hgp : env.gl_portals <;> cases hnd : p.NeedDepthBuffer <;>
      cases doquery <;> cases hnq : env.gl_noquery <;> by_cases hq : queryResult = 0 <;>
      simp [Start, Id.run, DrawPortalStencil_eq, hgp, hnd, hnq, hq]
  have hend : ∃ res, End env (Start env queryResult p usestencil doquery outer_di w).portal di
        usestencil content = some res ∧
      res.2.recursion = content.recursion - (if usestencil then 1 else 0) := by
    generalize (Start env queryResult p usestencil doquery outer_di w).portal = pe
    cases usestencil <;> cases hnd : pe.NeedDepthBuffer <;>
      simp [End, hdi, Id.run, DrawPortalStencil_eq, hnd]
  obtain ⟨res, hres, hrec⟩ := hend
  refine ⟨res, hres, hstart, hrec, ?_⟩
  rw [hrec, hbal, hstart]; ring


/-- Witness for C1: the stencil start `sampleStarted` at depth 0, ended on its child
context. -/
theorem C1_recursion_balanced_witness :
    sampleStarted.ok = true ∧ sampleChild.outer = some sampleOuter ∧
    ∃ res, End sampleEnv sampleStarted.portal sampleChild true sampleStarted.world = some res ∧
      sampleStarted.world.recursion = sampleWorld.recursion + (if true then 1 else 0) ∧
      res.2.recursion = sampleStarted.world.recursion - (if true then 1 else 0) ∧
      res.2.recursion = sampleWorld.recursion :=
  ⟨by decide, rfl,
    C1_recursion_balanced sampleEnv 5 samplePortal true true sampleOuter sampleWorld (by decide)
      sampleStarted.world rfl sampleChild sampleOuter rfl⟩

/-- C2 as stated fails: on a device whose stencil test is `GL_ALWAYS` with operation
`(GL_KEEP, GL_KEEP, GL_REPLACE)`, an occlusion-culled `Start` returns false and leaves
the stencil function `GL_EQUAL` and the operation `(GL_KEEP, GL_KEEP, GL_KEEP)`. -/
theorem C2_counterexample :
    sampleEnv.gl_portals = true ∧ sampleEnv.gl_noquery = false ∧
    samplePortal.NeedDepthBuffer = true ∧
    (Start sampleEnv 0 samplePortal true true sampleOuter sampleWorld).ok = false ∧
    sampleWorld.gl.stencilFunc = .GL_ALWAYS ∧
    (Start sampleEnv 0 samplePortal true true sampleOuter sampleWorld).world.gl.stencilFunc
      = .GL_EQUAL ∧
    sampleWorld.gl.stencilZPass = .GL_REPLACE ∧
    (Start sampleEnv 0 samplePortal true true sampleOuter sampleWorld).world.gl.stencilZPass
      = .GL_KEEP := by
  decide

/-- C2, amended: an occlusion-culled `Start` (stencil requested, portals enabled, depth
buffer needed, query issued and reporting 0 samples) returns false without a child
context and without incrementing the recursion counter, and it leaves the stencil
function `GL_EQUAL recursion ~0` and the stencil operation `(GL_KEEP, GL_KEEP, GL_KEEP)`;
these are the pre-call values whenever the stencil state on entry was that default. -/
theorem C2_culled_start_resets_stencil (env : Env) (queryResult : Nat) (p : GLPortal)
    (doquery : Bool) (outer_di : HWDrawInfo) (w : World)
    (hportals : env.gl_portals = true) (hdepth : p.NeedDepthBuffer = true)
    (hquery : doquery = true) (hnoquery : env.gl_noquery = false)
    (hsamples : queryResult = 0) :
    (Start env queryResult p true doquery outer_di w).ok = false ∧
    (Start env queryResult p true doquery outer_di w).pDi = none ∧
    (Start env queryResult p true doquery outer_di w).world.recursion = w.recursion ∧
    (Start env queryResult p true doquery outer_di w).world.gl.stencilFunc = .GL_EQUAL ∧
    (Start env queryResult p true doquery outer_di w).world.gl.stencilRef = w.recursion ∧
    (Start env queryResult p true doquery outer_di w).world.gl.stencilMask = allBits ∧
    (Start env queryResult p true doquery outer_di w).world.gl.stencilFail = .GL_KEEP ∧
    (Start env queryResult p true doquery outer_di w).world.gl.stencilZFail = .GL_KEEP ∧
    (Start env queryResult p true doquery outer_di w).world.gl.stencilZPass = .GL_KEEP ∧
    (w.gl.stencilFunc = .GL_EQUAL ∧ w.gl.stencilRef = w.recursion ∧
        w.gl.stencilMask = allBits ∧ w.gl.stencilFail = .GL_KEEP ∧
        w.gl.stencilZFail = .GL_KEEP ∧ w.gl.stencilZPass = .GL_KEEP →
      (Start env queryResult p true doquery outer_di w).world.gl.stencilFunc
          = w.gl.stencilFunc ∧
      (Start env queryResult p true doquery outer_di w).world.gl.stencilRef
          = w.gl.stencilRef ∧
      (Start env queryResult p true doquery outer_di w).world.gl.stencilMask
          = w.gl.stencilMask ∧
      (Start env queryResult p true doquery outer_di w).world.gl.stencilFail
          = w.gl.stencilFail ∧
      (Start env queryResult p true doquery outer_di w).world.gl.stencilZFail
          = w.gl.stencilZFail ∧
      (Start env queryResult p true doquery outer_di w).world.gl.stencilZPass
          = w.gl.stencilZPass) := by
  subst hquery hsamples
  have h : (Start env 0 p true true outer_di w).ok = false ∧
      (Start env 0 p true true outer_di w).pDi = none ∧
      (Start env 0 p true true outer_di w).world.recursion = w.recursion ∧
      (Start env 0 p true true outer_di w).world.gl.stencilFunc = .GL_EQUAL ∧
      (Start env 0 p true true outer_di w).world.gl.stencilRef = w.recursion ∧
      (Start env 0 p true true outer_di w).world.gl.stencilMask = allBits ∧
      (Start env 0 p true true outer_di w).world.gl.stencilFail = .GL_KEEP ∧
      (Start env 0 p true true outer_di w).world.gl.stencilZFail = .GL_KEEP ∧
      (Start env 0 p true true outer_di w).world.gl.stencilZPass = .GL_KEEP := by
    simp [Start, Id.run, DrawPortalStencil_eq, hportals, hdepth, hnoquery]
  obtain ⟨h1, h2, h3, h4, h5, h6, h7, h8, h9⟩ := h
  refine ⟨h1, h2, h3, h4, h5, h6, h7, h8, h9, ?_⟩
  rintro ⟨g1, g2, g3, g4, g5, g6⟩
  exact ⟨h4.trans g1.symm, h5.trans g2.symm, h6.trans g3.symm, h7.trans g4.symm,
    h8.trans g5.symm, h9.trans g6.symm⟩

/-- Witness for C2 (amended): the culled start of `samplePortal` in the portal default
stencil state. -/
theorem C2_culled_start_resets_stencil_witness :
    samplePortalWorld.gl.stencilFunc = .GL_EQUAL ∧
    samplePortalWorld.gl.stencilRef = samplePortalWorld.recursion ∧
    (Start sampleEnv 0 samplePortal true true sampleOuter samplePortalWorld).ok = false ∧
    (Start sampleEnv 0 samplePortal true true sampleOuter samplePortalWorld).world.gl.stencilRef
      = samplePortalWorld.recursion :=
  ⟨by decide, by decide,
    (C2_culled_start_resets_stencil sampleEnv 0 samplePortal true sampleOuter samplePortalWorld
      rfl rfl rfl rfl rfl).1,
    (C2_culled_start_resets_stencil sampleEnv 0 samplePortal true sampleOuter samplePortalWorld
      rfl rfl rfl rfl rfl).2.2.2.2.1⟩

/-- C3 as stated fails: with `gl_portals` off, `Start` still counts the portal in
`rendered_portals`. -/
theorem C3_counterexample :
    sampleEnvDisabled.gl_portals = false ∧
    (Start sampleEnvDisabled 5 samplePortal true true sampleOuter sampleWorld).ok = false ∧
    sampleWorld.rendered_portals = 0 ∧
    (Start sampleEnvDisabled 5 samplePortal true true sampleOuter
      sampleWorld).world.rendered_portals = 1 := by
  decide

/-- C3, amended: with `usestencil` true and `gl_portals` false, `Start` returns false
with a null child context; the device state, the recursion counter, the actors, the
portal object and the call log are unchanged, and `rendered_portals` is incremented
by one. -/
theorem C3_disabled_start_counts_only (env : Env) (queryResult : Nat) (p : GLPortal)
    (doquery : Bool) (outer_di : HWDrawInfo) (w : World)
    (hportals : env.gl_portals = false) :
    (Start env queryResult p true doquery outer_di w).ok = false ∧
    (Start env queryResult p true doquery outer_di w).pDi = none ∧
    (Start env queryResult p true doquery outer_di w).portal = p ∧
    (Start env queryResult p true doquery outer_di w).world.gl = w.gl ∧
    (Start env queryResult p true doquery outer_di w).world.recursion = w.recursion ∧
    (Start env queryResult p true doquery outer_di w).world.renderflags = w.renderflags ∧
    (Start env queryResult p true doquery outer_di w).world.trace = w.trace ∧
    (Start env queryResult p true doquery outer_di w).world.rendered_portals =
      w.rendered_portals + 1 := by
  simp [Start, Id.run, hportals]

/-- Witness for C3 (amended). -/
theorem C3_disabled_start_counts_only_witness :
    sampleEnvDisabled.gl_portals = false ∧
    (Start sampleEnvDisabled 5 samplePortal true true sampleOuter sampleWorld).world.gl
      = sampleWorld.gl ∧
    (Start sampleEnvDisabled 5 samplePortal true true sampleOuter
      sampleWorld).world.rendered_portals = sampleWorld.rendered_portals + 1 :=
  ⟨rfl,
    (C3_disabled_start_counts_only sampleEnvDisabled 5 samplePortal true sampleOuter sampleWorld
      rfl).2.2.2.1,
    (C3_disabled_start_counts_only sampleEnvDisabled 5 samplePortal true sampleOuter sampleWorld
      rfl).2.2.2.2.2.2.2⟩

/-- C4: `Start` returns false exactly when (a) `usestencil` is true and `gl_portals` is
false, or (b) `usestencil` and `gl_portals` are true, the portal needs a depth buffer,
a query was requested and not suppressed by `gl_noquery`, and it reports zero samples.
A failing call returns a null child context; a succeeding call returns a child context
derived from the outer one and owned by this portal. -/
theorem C4_start_failure_iff (env : Env) (queryResult : Nat) (p : GLPortal)
    (usestencil doquery : Bool) (outer_di : HWDrawInfo) (w : World) :
    ((Start env queryResult p usestencil doquery outer_di w).ok = false ↔
      ((usestencil = true ∧ env.gl_portals = false) ∨
       (usestencil = true ∧ env.gl_portals = true ∧ p.NeedDepthBuffer = true ∧
          doquery = true ∧ env.gl_noquery = false ∧ queryResult = 0))) ∧
    ((Start env queryResult p usestencil doquery outer_di w).ok = false ∧
       (Start env queryResult p usestencil doquery outer_di w).pDi = none ∨
     (Start env queryResult p usestencil doquery outer_di w).ok = true ∧
       ∃ di, (Start env queryResult p usestencil doquery outer_di w).pDi = some di ∧
         di.mCurrentPortal = some p.self ∧ di.outer = some outer_di ∧
         di.camera = outer_di.camera ∧ di.VPUniforms = outer_di.VPUniforms) := by
  cases usestencil <;> cases hgp : env.gl_portals <;> cases hnd : p.NeedDepthBuffer <;>
    cases doquery <;> cases hnq : env.gl_noquery <;> by_cases hq : queryResult = 0 <;>
    simp [Start, Id.run, DrawPortalStencil_eq, hgp, hnd, hnq, hq,
      HWDrawInfo.setCurrentPortal, HWDrawInfo.mCurrentPortal, HWDrawInfo.outer,
      HWDrawInfo.camera, HWDrawInfo.VPUniforms]


theorem testBit_complement32 (x i : Nat) :
    (complement32 x).testBit i = (decide (i < 32) && !x.testBit i) := by
  have h : allBits = 2 ^ 32 - 1 := by decide
  unfold complement32
  rw [h, Nat.testBit_xor, Nat.testBit_two_pow_sub_one, Nat.testBit_mod_two_pow]
  by_cases hi : i < 32 <;> simp [hi]

theorem restore_mask_bits (f f0 m : Nat) :
    ((f &&& complement32 m) ||| (f0 &&& m)) &&& m = f0 &&& m := by
  apply Nat.eq_of_testBit_eq
  intro i
  simp only [Nat.testBit_and, Nat.testBit_or, testBit_complement32]
  cases f.testBit i <;> cases f0.testBit i <;> cases m.testBit i <;> simp

theorem restore_other_bits (f f0 m : Nat) :
    ((f &&& complement32 m) ||| (f0 &&& m)) &&& complement32 m = f &&& complement32 m := by
  apply Nat.eq_of_testBit_eq
  intro i
  simp only [Nat.testBit_and, Nat.testBit_or, testBit_complement32]
  cases f.testBit i <;> cases f0.testBit i <;> cases m.testBit i <;> simp

theorem Start_savedvisibility (env : Env) (queryResult : Nat) (p : GLPortal)
    (usestencil doquery : Bool) (outer_di : HWDrawInfo) (w : World) (cam : Nat)
    (hcam : outer_di.camera = some cam)
    (hok : (Start env queryResult p usestencil doquery outer_di w).ok = true) :
    (Start env queryResult p usestencil doquery outer_di w).portal.savedvisibility =
      w.renderflags cam &&& env.RF_MAYBEINVISIBLE := by
  revert hok
  cases usestencil <;> cases hgp : env.gl_portals <;> cases hnd : p.NeedDepthBuffer <;>
    cases doquery <;> cases hnq : env.gl_noquery <;> by_cases hq : queryResult = 0 <;>
    simp [Start, Id.run, DrawPortalStencil_eq, hgp, hnd, hnq, hq, hcam]

theorem End_renderflags (env : Env) (p : GLPortal) (di enclosing : HWDrawInfo)
    (usestencil : Bool) (w : World) (hdi : di.outer = some enclosing) :
    ∃ res, End env p di usestencil w = some res ∧
      res.2.renderflags = (restoreVisibility env p enclosing.camera w).renderflags := by
  cases usestencil <;> cases hnd : p.NeedDepthBuffer <;>
    simp [End, hdi, Id.run, DrawPortalStencil_eq, hnd] <;>
    cases enclosing.camera <;> simp [restoreVisibility]

/-- C5: when `Start` succeeds and the matching `End` is run on the same portal and the same
outer context, the `RF_MAYBEINVISIBLE` bits of the outer camera after `End` are those it
had before `Start`, whatever render flags content rendering left; `End` changes no other
bit of the camera's flags and no flag of any other actor. -/
theorem C5_visibility_round_trip (env : Env) (queryResult : Nat) (p : GLPortal)
    (usestencil doquery : Bool) (outer_di : HWDrawInfo) (w : World) (camera : Nat)
    (hcam : outer_di.camera = some camera)
    (hok : (Start env queryResult p usestencil doquery outer_di w).ok = true)
    (content : World) (di : HWDrawInfo) (hdi : di.outer = some outer_di) :
    ∃ res, End env (Start env queryResult p usestencil doquery outer_di w).portal di
        usestencil content = some res ∧
      res.2.renderflags camera &&& env.RF_MAYBEINVISIBLE =
        w.renderflags camera &&& env.RF_MAYBEINVISIBLE ∧
      res.2.renderflags camera &&& complement32 env.RF_MAYBEINVISIBLE =
        content.renderflags camera &&& complement32 env.RF_MAYBEINVISIBLE ∧
      ∀ actor, actor ≠ camera → res.2.renderflags actor = content.renderflags actor := by
  obtain ⟨res, hres, hflags⟩ :=
    End_renderflags env (Start env queryResult p usestencil doquery outer_di w).portal di
      outer_di usestencil content hdi
  have hsaved := Start_savedvisibility env queryResult p usestencil doquery outer_di w camera
    hcam hok
  refine ⟨res, hres, ?_, ?_, ?_⟩
  · rw [hflags, hcam]
    simp only [restoreVisibility, if_true, hsaved]
    exact restore_mask_bits _ _ _
  · rw [hflags, hcam]
    simp only [restoreVisibility, if_true, hsaved]
    exact restore_other_bits _ _ _
  · intro actor hne
    rw [hflags, hcam]
    simp [restoreVisibility, hne]

/-- Witness for C5: the camera at address 5 has the bit set before `Start` (flags
`0x02000001`), content rendering leaves every actor with the flags `0x00000004`, and
`End` sets the bit again. -/
theorem C5_visibility_round_trip_witness :
    sampleOuter.camera = some 5 ∧ sampleStarted.ok = true ∧
    sampleChild.outer = some sampleOuter ∧
    ∃ res, End sampleEnv sampleStarted.portal sampleChild true
        { sampleStarted.world with renderflags := fun _ => 0x00000004 } = some res ∧
      res.2.renderflags 5 &&& sampleEnv.RF_MAYBEINVISIBLE =
        sampleWorld.renderflags 5 &&& sampleEnv.RF_MAYBEINVISIBLE ∧
      res.2.renderflags 5 &&& complement32 sampleEnv.RF_MAYBEINVISIBLE =
        0x00000004 &&& complement32 sampleEnv.RF_MAYBEINVISIBLE ∧
      ∀ actor, actor ≠ 5 → res.2.renderflags actor = 0x00000004 :=
  ⟨rfl, by decide, rfl,
    C5_visibility_round_trip sampleEnv 5 samplePortal true true sampleOuter sampleWorld 5 rfl
      (by decide) { sampleStarted.world with renderflags := fun _ => 0x00000004 } sampleChild
      rfl⟩

/-- C6 fails on the stencil path of a portal that needs no depth buffer: from the normal
drawing state, `Start` succeeds and the matching `End` restores depth test, depth
function, depth range, colour mask, texturing and effect, but leaves depth writes
disabled. -/
theorem C6_depth_writes_left_disabled (env : Env) (queryResult : Nat) (p : GLPortal)
    (doquery : Bool) (outer_di : HWDrawInfo) (w : World) (di : HWDrawInfo)
    (hportals : env.gl_portals = true) (hdepth : p.NeedDepthBuffer = false)
    (hnormal : normalDrawing w.gl) (hdi : di.outer = some outer_di) :
    (Start env queryResult p true doquery outer_di w).ok = true ∧
    ∃ res, End env (Start env queryResult p true doquery outer_di w).portal di true
        (Start env queryResult p true doquery outer_di w).world = some res ∧
      w.gl.depthMask = true ∧ res.2.gl.depthMask = false ∧
      res.2.gl.depthTest = w.gl.depthTest ∧ res.2.gl.depthFunc = w.gl.depthFunc ∧
      res.2.gl.depthRangeNear = w.gl.depthRangeNear ∧
      res.2.gl.depthRangeFar = w.gl.depthRangeFar ∧
      res.2.gl.colorMaskR = w.gl.colorMaskR ∧ res.2.gl.colorMaskG = w.gl.colorMaskG ∧
      res.2.gl.colorMaskB = w.gl.colorMaskB ∧ res.2.gl.colorMaskA = w.gl.colorMaskA ∧
      res.2.gl.textureEnabled = w.gl.textureEnabled ∧ res.2.gl.effect = w.gl.effect := by
  obtain ⟨h1, h2, h3, h4, h5, h6, h7, h8, h9, h10, h11⟩ := hnormal
  simp [Start, End, Id.run, DrawPortalStencil_eq, hportals, hdepth, hdi,
    h1, h2, h3, h4, h5, h6, h7, h8, h9, h10, h11]


/-- Witness for the C6 evaluation: the horizon-like `sampleHorizon` on the stencil path. -/
theorem C6_depth_writes_left_disabled_witness :
    sampleEnv.gl_portals = true ∧ sampleHorizon.NeedDepthBuffer = false ∧
    normalDrawing sampleWorld.gl ∧ sampleChild.outer = some sampleOuter ∧
    ∃ res, End sampleEnv (Start sampleEnv 5 sampleHorizon true false sampleOuter sampleWorld).portal
        sampleChild true (Start sampleEnv 5 sampleHorizon true false sampleOuter sampleWorld).world
        = some res ∧
      sampleWorld.gl.depthMask = true ∧ res.2.gl.depthMask = false :=
  ⟨rfl, rfl, by decide, rfl,
    (C6_depth_writes_left_disabled sampleEnv 5 sampleHorizon false sampleOuter sampleWorld
      sampleChild rfl rfl (by decide) rfl).2.imp fun _ h => ⟨h.1, h.2.1, h.2.2.1⟩⟩

/-! ## Claims about `DrawPortalStencil` and the content renderers -/

@[simp] theorem map_call_stamp (g : GLState) (r : Int) (cs : List Call) :
    (stamp g r cs).map Event.call = cs := by
  simp [stamp, Function.comp_def]

theorem traceSince_append (w w1 : World) (d : List Event) (h : w1.trace = w.trace ++ d) :
    traceSince w w1 = d := by
  simp [traceSince, h]

theorem callsSince_append (w w1 : World) (d : List Event) (h : w1.trace = w.trace ++ d) :
    callsSince w w1 = d.map Event.call := by
  simp [callsSince, traceSince_append w w1 d h]

theorem dpsEvents_calls (fvb : FlatVertexIndices) (p : GLPortal) (pass : StencilPass)
    (g : GLState) (r : Int) :
    (dpsEvents fvb p pass g r).map Event.call = dpsCalls fvb p pass := by
  unfold dpsEvents dpsCalls
  cases hasCap p <;> cases pass <;> simp [capEvents, capCalls]

theorem callsSince_DrawPortalStencil (fvb : FlatVertexIndices) (p : GLPortal)
    (pass : StencilPass) (w : World) :
    callsSince w (DrawPortalStencil fvb p pass w).2 = dpsCalls fvb p pass := by
  rw [DrawPortalStencil_eq, callsSince_append w _ (dpsEvents fvb p pass w.gl w.recursion) rfl,
    dpsEvents_calls]

theorem cachePrimIndices_fresh (p : GLPortal) (h : p.mPrimIndices = []) :
    (cachePrimIndices p).mPrimIndices = flatRanges p.lines := by
  have := fillPrimIndices_eq p.lines 0 [] rfl
  simp only [List.nil_append] at this
  simp [cachePrimIndices, h, this]

theorem cachePrimIndices_idem (p : GLPortal) :
    cachePrimIndices (cachePrimIndices p) = cachePrimIndices p := by
  by_cases h : p.mPrimIndices.length = 0
  · simp only [cachePrimIndices, h, if_true]
    split <;> rfl
  · simp [cachePrimIndices, h]

theorem flatRanges_length (ls : List GLWall) : (flatRanges ls).length = 2 * ls.length := by
  induction ls with
  | nil => rfl
  | cons l rest ih =>
    have : flatRanges (l :: rest) = l.vertindex :: l.vertcount :: flatRanges rest := by
      simp [flatRanges]
    rw [this]; simp [ih]; ring

theorem renderCalls_fan (prims : List Nat) (fuel i : Nat) :
    (renderCalls prims fuel i).filter isFanDraw = renderCalls prims fuel i := by
  induction fuel generalizing i with
  | zero => simp [renderCalls]
  | succ n ih =>
    simp only [renderCalls]
    split
    · simp [isFanDraw, ih]
    · simp

/-- C8: the first `DrawPortalStencil` call on a portal with boundary segments
`l_0..l_{n-1}` and an empty cache leaves the cache equal to
`[l_0.vertindex, l_0.vertcount, ..., l_{n-1}.vertindex, l_{n-1}.vertcount]`; a second call
with the same pass leaves the portal identical and issues the same calls, in particular
the same triangle-fan draws: one per segment in order, then the two cap fans when the
portal has a cap. -/
theorem C8_stencil_cache_idempotent (fvb : FlatVertexIndices) (p : GLPortal)
    (pass : StencilPass) (w w2 : World) (hfresh : p.mPrimIndices = []) :
    (DrawPortalStencil fvb p pass w).1.mPrimIndices = flatRanges p.lines ∧
    (DrawPortalStencil fvb (DrawPortalStencil fvb p pass w).1 pass w2).1 =
      (DrawPortalStencil fvb p pass w).1 ∧
    (callsSince w (DrawPortalStencil fvb p pass w).2).filter isFanDraw =
      p.lines.map (fun l => Call.RenderArray .GL_TRIANGLE_FAN l.vertindex l.vertcount) ++
        (if hasCap p then
          [.RenderArray .GL_TRIANGLE_FAN fvb.STENCILTOP_INDEX 4,
           .RenderArray .GL_TRIANGLE_FAN fvb.STENCILBOTTOM_INDEX 4]
         else []) ∧
    callsSince w2 (DrawPortalStencil fvb (DrawPortalStencil fvb p pass w).1 pass w2).2 =
      callsSince w (DrawPortalStencil fvb p pass w).2 := by
  have hflat := cachePrimIndices_fresh p hfresh
  have hlen := flatRanges_length p.lines
  refine ⟨?_, ?_, ?_, ?_⟩
  · simp [DrawPortalStencil_eq, hflat]
  · simp [DrawPortalStencil_eq, cachePrimIndices_idem]
  · rw [callsSince_DrawPortalStencil]
    unfold dpsCalls
    rw [hflat]
    have hr := renderCalls_flat p.lines [] (flatRanges p.lines).length (by omega)
    simp only [List.nil_append, List.length_nil] at hr
    rw [hr]
    cases hasCap p <;> cases pass <;> simp [capCalls, isFanDraw, List.filter_map, Function.comp_def]
  · rw [callsSince_DrawPortalStencil, callsSince_DrawPortalStencil]
    simp [DrawPortalStencil_eq, dpsCalls, cachePrimIndices_idem]


/-- Witness for C8: two stencil draws of `samplePortal`, the second in the world the
first one left. -/
theorem C8_stencil_cache_idempotent_witness :
    samplePortal.mPrimIndices = [] ∧
    (DrawPortalStencil sampleEnv.fvb samplePortal .STP_Stencil sampleWorld).1.mPrimIndices
      = [100, 4, 104, 6] ∧
    (callsSince sampleWorld
        (DrawPortalStencil sampleEnv.fvb samplePortal .STP_Stencil sampleWorld).2).filter isFanDraw
      = [.RenderArray .GL_TRIANGLE_FAN 100 4, .RenderArray .GL_TRIANGLE_FAN 104 6,
         .RenderArray .GL_TRIANGLE_FAN 8 4, .RenderArray .GL_TRIANGLE_FAN 12 4] ∧
    callsSince (DrawPortalStencil sampleEnv.fvb samplePortal .STP_Stencil sampleWorld).2
        (DrawPortalStencil sampleEnv.fvb
          (DrawPortalStencil sampleEnv.fvb samplePortal .STP_Stencil sampleWorld).1 .STP_Stencil
          (DrawPortalStencil sampleEnv.fvb samplePortal .STP_Stencil sampleWorld).2).2
      = callsSince sampleWorld
          (DrawPortalStencil sampleEnv.fvb samplePortal .STP_Stencil sampleWorld).2 :=
  ⟨rfl,
    (C8_stencil_cache_idempotent sampleEnv.fvb samplePortal .STP_Stencil sampleWorld
      (DrawPortalStencil sampleEnv.fvb samplePortal .STP_Stencil sampleWorld).2 rfl).1,
    (C8_stencil_cache_idempotent sampleEnv.fvb samplePortal .STP_Stencil sampleWorld
      (DrawPortalStencil sampleEnv.fvb samplePortal .STP_Stencil sampleWorld).2 rfl).2.2.1,
    (C8_stencil_cache_idempotent sampleEnv.fvb samplePortal .STP_Stencil sampleWorld
      (DrawPortalStencil sampleEnv.fvb samplePortal .STP_Stencil sampleWorld).2 rfl).2.2.2⟩

theorem stripCalls_render (voffset vcount fuel i : Nat) :
    ∀ c ∈ stripCalls voffset vcount fuel i, ∃ a, c = .RenderArray .GL_TRIANGLE_STRIP a 4 := by
  induction fuel generalizing i with
  | zero => simp [stripCalls]
  | succ n ih =>
    simp only [stripCalls]
    split
    · intro c hc
      rcases List.mem_cons.mp hc with h | h
      · exact ⟨_, h⟩
      · exact ih _ c h
    · simp

theorem stripCalls_length (voffset vcount fuel i : Nat) (hfuel : vcount ≤ i + 4 * fuel) :
    (stripCalls voffset vcount fuel i).length = (vcount - i + 3) / 4 := by
  induction fuel generalizing i with
  | zero => simp [stripCalls]; omega
  | succ n ih =>
    simp only [stripCalls]
    split
    · rw [List.length_cons, ih (i + 4) (by omega)]; omega
    · simp; omega

theorem stripCalls_filter_render (voffset vcount fuel i : Nat) :
    (stripCalls voffset vcount fuel i).filter isRenderArray = stripCalls voffset vcount fuel i := by
  rw [List.filter_eq_self]
  intro c hc
  obtain ⟨a, rfl⟩ := stripCalls_render _ _ _ _ c hc
  rfl

theorem stripCalls_filter_horizon (voffset vcount fuel i : Nat) :
    (stripCalls voffset vcount fuel i).filter isHorizonDrawContents = [] := by
  rw [List.filter_eq_nil_iff]
  intro c hc
  obtain ⟨a, rfl⟩ := stripCalls_render _ _ _ _ c hc
  simp [isHorizonDrawContents]

theorem stripCalls_count (voffset vcount fuel i : Nat) (c : Call)
    (hc : isRenderArray c = false) :
    (stripCalls voffset vcount fuel i).count c = 0 := by
  rw [List.count_eq_zero]
  intro hmem
  obtain ⟨a, rfl⟩ := stripCalls_render _ _ _ _ c hmem
  simp [isRenderArray] at hc

/-- The log entries of `GLHorizonPortal::DrawContents`. -/
theorem horizon_trace (env : Env) (h : GLHorizonPortal) (w : World) :
    (h.DrawContents env w).trace = w.trace ++ traceSince w (h.DrawContents env w) := by
  unfold GLHorizonPortal.DrawContents
  cases env.ValidateTexture h.origin.texture with
  | none => cases hm : w.gl.multisample <;> simp [ClearScreen, traceSince, hm]
  | some m => simp [renderHorizonStrips_eq, traceSince]

theorem horizon_calls_unresolved (env : Env) (h : GLHorizonPortal) (w : World)
    (hv : env.ValidateTexture h.origin.texture = none) :
    callsSince w (h.DrawContents env w) =
      [.HorizonDrawContents h.origin.texture h.voffset h.vcount h.attrindex,
       .ClearScreen, .glIsEnabled .GL_MULTISAMPLE, .Set2D, .EnableTexture false, .Apply none,
       .glDisable .GL_MULTISAMPLE, .glDisable .GL_DEPTH_TEST,
       .glDrawArrays .GL_TRIANGLE_STRIP env.fvb.FULLSCREEN_INDEX 4,
       .glEnable .GL_DEPTH_TEST] ++
      (if w.gl.multisample then [.glEnable .GL_MULTISAMPLE] else []) := by
  unfold GLHorizonPortal.DrawContents
  rw [hv]
  cases hm : w.gl.multisample <;> simp [ClearScreen, callsSince, traceSince, hm]

theorem horizon_calls_resolved (env : Env) (h : GLHorizonPortal) (w : World) (m : Nat)
    (hv : env.ValidateTexture h.origin.texture = some m) :
    callsSince w (h.DrawContents env w) =
      [.HorizonDrawContents h.origin.texture h.voffset h.vcount h.attrindex,
       .SetCameraPos, .SetMaterial m, .BlendFunc .GL_ONE .GL_ZERO, .Apply (some h.attrindex)] ++
      stripCalls h.voffset h.vcount h.vcount 0 ++
      [.RenderArray .GL_TRIANGLE_STRIP (h.voffset + h.vcount) 10] := by
  unfold GLHorizonPortal.DrawContents
  rw [hv]
  simp [renderHorizonStrips_eq, callsSince, traceSince]


/-- C9: a horizon content draw whose plane material cannot be resolved runs the
screen-clear fallback exactly once and submits no geometry (`RenderArray`) at all; the
only primitive drawn is the full-screen quad of `ClearScreen` itself.  When the material
resolves, the fallback is never run and the strips are submitted: one per four vertices
plus the closing strip. -/
theorem C9_horizon_fallback (env : Env) (h : GLHorizonPortal) (w : World) :
    match env.ValidateTexture h.origin.texture with
    | none =>
        h.DrawContents env w =
          ClearScreen env.fvb
            (emit (.HorizonDrawContents h.origin.texture h.voffset h.vcount h.attrindex) w) ∧
        (callsSince w (h.DrawContents env w)).count .ClearScreen = 1 ∧
        (callsSince w (h.DrawContents env w)).filter isRenderArray = [] ∧
        (callsSince w (h.DrawContents env w)).filter isDraw =
          [.glDrawArrays .GL_TRIANGLE_STRIP env.fvb.FULLSCREEN_INDEX 4]
    | some _ =>
        (callsSince w (h.DrawContents env w)).count .ClearScreen = 0 ∧
        ((callsSince w (h.DrawContents env w)).filter isRenderArray).length =
          (h.vcount + 3) / 4 + 1 := by
  cases hv : env.ValidateTexture h.origin.texture with
  | none =>
    refine ⟨?_, ?_, ?_, ?_⟩
    · simp [GLHorizonPortal.DrawContents, hv]
    · rw [horizon_calls_unresolved env h w hv]
      cases w.gl.multisample <;> simp [List.count_cons]
    · rw [horizon_calls_unresolved env h w hv]
      cases w.gl.multisample <;> simp [isRenderArray]
    · rw [horizon_calls_unresolved env h w hv]
      cases w.gl.multisample <;> simp [isDraw]
  | some m =>
    rw [horizon_calls_resolved env h w m hv]
    refine ⟨?_, ?_⟩
    · simp [List.count_cons, stripCalls_count _ _ _ _ Call.ClearScreen rfl]
    · simp [List.filter_cons, isRenderArray, stripCalls_filter_render,
        stripCalls_length h.voffset h.vcount h.vcount 0 (by omega)]

theorem callsSince_trans (w0 w1 w2 : World)
    (h1 : w1.trace = w0.trace ++ traceSince w0 w1)
    (h2 : w2.trace = w1.trace ++ traceSince w1 w2) :
    callsSince w0 w2 = callsSince w0 w1 ++ callsSince w1 w2 := by
  have h : w2.trace = w0.trace ++ (traceSince w0 w1 ++ traceSince w1 w2) := by
    rw [← List.append_assoc, ← h1, ← h2]
  rw [callsSince_append w0 w2 _ h]
  simp [callsSince]

theorem stripCalls_filter_sky (voffset vcount fuel i : Nat) :
    (stripCalls voffset vcount fuel i).filter isSkyDrawContents = [] := by
  rw [List.filter_eq_nil_iff]
  intro c hc
  obtain ⟨a, rfl⟩ := stripCalls_render _ _ _ _ c hc
  simp [isSkyDrawContents]

theorem horizon_filter_sky (env : Env) (h : GLHorizonPortal) (w : World) :
    (callsSince w (h.DrawContents env w)).filter isSkyDrawContents = [] := by
  cases hv : env.ValidateTexture h.origin.texture with
  | none =>
    rw [horizon_calls_unresolved env h w hv]
    cases w.gl.multisample <;> simp [isSkyDrawContents]
  | some m =>
    rw [horizon_calls_resolved env h w m hv]
    simp [List.filter_cons, isSkyDrawContents, stripCalls_filter_sky]

theorem horizon_filter_entries (env : Env) (h : GLHorizonPortal) (w : World) :
    (callsSince w (h.DrawContents env w)).filter isHorizonDrawContents =
      [.HorizonDrawContents h.origin.texture h.voffset h.vcount h.attrindex] := by
  cases hv : env.ValidateTexture h.origin.texture with
  | none =>
    rw [horizon_calls_unresolved env h w hv]
    cases w.gl.multisample <;> simp [isHorizonDrawContents]
  | some m =>
    rw [horizon_calls_resolved env h w m hv]
    simp [List.filter_cons, isHorizonDrawContents, stripCalls_filter_horizon]

/-- C7 fails on the floor branch: for a sector with sky ceiling and non-sky floor,
`GLEEHorizonPortal::DrawContents` makes one sky content draw, no horizon content draw
for the ceiling, and two horizon content draws for the floor (lines 443 and 444). -/
theorem C7_floor_contents_drawn_twice (env : Env) (ee : GLEEHorizonPortal) (w : World)
    (hceiling : ee.sector.ceilingTexture = env.skyflatnum)
    (hfloor : ee.sector.floorTexture ≠ env.skyflatnum) :
    (callsSince w (ee.DrawContents env w)).filter isSkyDrawContents =
      [.SkyDrawContents ee.sector.sky] ∧
    (callsSince w (ee.DrawContents env w)).filter isHorizonDrawContents =
      [.HorizonDrawContents ee.horz1.texture ee.voffset1 ee.vcount1 ee.attrs1,
       .HorizonDrawContents ee.horz1.texture ee.voffset1 ee.vcount1 ee.attrs1] := by
  have hsky : (ee.sector.floorTexture = env.skyflatnum ∨
      ee.sector.ceilingTexture = env.skyflatnum) := Or.inr hceiling
  have hnotceil : ¬ (ee.sector.ceilingTexture ≠ env.skyflatnum) := fun h => h hceiling
  have hrun : ee.DrawContents env w =
      GLHorizonPortal.DrawContents env ⟨ee.horz1, ee.voffset1, ee.vcount1, ee.attrs1⟩
        (GLHorizonPortal.DrawContents env ⟨ee.horz1, ee.voffset1, ee.vcount1, ee.attrs1⟩
          (GLSkyPortal.DrawContents ee.sector.sky w)) := by
    simp only [GLEEHorizonPortal.DrawContents, if_pos hsky, if_neg hnotceil, if_pos hfloor]
  have h01 : (GLSkyPortal.DrawContents ee.sector.sky w).trace =
      w.trace ++ traceSince w (GLSkyPortal.DrawContents ee.sector.sky w) := by
    simp [GLSkyPortal.DrawContents, traceSince]
  have hskycalls : callsSince w (GLSkyPortal.DrawContents ee.sector.sky w) = [.SkyDrawContents ee.sector.sky] := by
    simp [GLSkyPortal.DrawContents, callsSince, traceSince]
  have h12 := horizon_trace env ⟨ee.horz1, ee.voffset1, ee.vcount1, ee.attrs1⟩
    (GLSkyPortal.DrawContents ee.sector.sky w)
  have h23 := horizon_trace env ⟨ee.horz1, ee.voffset1, ee.vcount1, ee.attrs1⟩
    (GLHorizonPortal.DrawContents env ⟨ee.horz1, ee.voffset1, ee.vcount1, ee.attrs1⟩
      (GLSkyPortal.DrawContents ee.sector.sky w))
  have h02 : (GLHorizonPortal.DrawContents env ⟨ee.horz1, ee.voffset1, ee.vcount1, ee.attrs1⟩
      (GLSkyPortal.DrawContents ee.sector.sky w)).trace = w.trace ++ traceSince w
        (GLHorizonPortal.DrawContents env ⟨ee.horz1, ee.voffset1, ee.vcount1, ee.attrs1⟩
          (GLSkyPortal.DrawContents ee.sector.sky w)) := by
    have h : (GLHorizonPortal.DrawContents env ⟨ee.horz1, ee.voffset1, ee.vcount1, ee.attrs1⟩
        (GLSkyPortal.DrawContents ee.sector.sky w)).trace =
        w.trace ++ (traceSince w (GLSkyPortal.DrawContents ee.sector.sky w) ++
          traceSince (GLSkyPortal.DrawContents ee.sector.sky w)
            (GLHorizonPortal.DrawContents env ⟨ee.horz1, ee.voffset1, ee.vcount1, ee.attrs1⟩
              (GLSkyPortal.DrawContents ee.sector.sky w))) := by
      rw [← List.append_assoc, ← h01, ← h12]
    rw [traceSince_append w _ _ h]; exact h
  rw [hrun, callsSince_trans w _ _ h02 h23, callsSince_trans w _ _ h01 h12, hskycalls]
  refine ⟨?_, ?_⟩
  · simp [List.filter_cons, isSkyDrawContents, horizon_filter_sky]
  · simp [List.filter_cons, isHorizonDrawContents, horizon_filter_entries]

/-- Witness for the C7 evaluation: `sampleEEHorizon` has a sky ceiling and a floor with
texture 3. -/
theorem C7_floor_contents_drawn_twice_witness :
    sampleEEHorizon.sector.ceilingTexture = sampleEnv.skyflatnum ∧
    sampleEEHorizon.sector.floorTexture ≠ sampleEnv.skyflatnum ∧
    (callsSince sampleWorld (sampleEEHorizon.DrawContents sampleEnv sampleWorld)).filter
        isSkyDrawContents = [.SkyDrawContents 11] ∧
    (callsSince sampleWorld (sampleEEHorizon.DrawContents sampleEnv sampleWorld)).filter
        isHorizonDrawContents =
      [.HorizonDrawContents 3 300 8 1, .HorizonDrawContents 3 300 8 1] :=
  ⟨rfl, by decide,
    (C7_floor_contents_drawn_twice sampleEnv sampleEEHorizon sampleWorld rfl (by decide)).1,
    (C7_floor_contents_drawn_twice sampleEnv sampleEEHorizon sampleWorld rfl (by decide)).2⟩

/-! ## The stencil decrement of `End` -/

theorem dpsEvents_frame (fvb : FlatVertexIndices) (p : GLPortal) (pass : StencilPass)
    (g : GLState) (r : Int) :
    ∀ e ∈ dpsEvents fvb p pass g r,
      e.recursion = r ∧ e.gl.stencilFunc = g.stencilFunc ∧ e.gl.stencilRef = g.stencilRef ∧
      e.gl.stencilMask = g.stencilMask ∧ e.gl.stencilFail = g.stencilFail ∧
      e.gl.stencilZFail = g.stencilZFail ∧ e.gl.stencilZPass = g.stencilZPass := by
  intro e he
  unfold dpsEvents at he
  rw [List.mem_append, List.mem_append] at he
  rcases he with (he | he) | he
  · simp only [List.mem_cons, List.mem_singleton, List.not_mem_nil, or_false] at he
    rcases he with rfl | rfl <;> simp
  · simp only [stamp, List.mem_map] at he
    obtain ⟨c, _, rfl⟩ := he
    simp
  · split at he
    · cases pass <;>
        simp only [capEvents, List.mem_cons, List.mem_singleton, List.not_mem_nil,
          or_false] at he
      · rcases he with rfl | rfl <;> simp
      · rcases he with rfl | rfl <;> simp
      · rcases he with rfl | rfl | rfl | rfl <;> simp
      · rcases he with rfl | rfl | rfl <;> simp
    · simp at he

theorem dpsCalls_cachePrimIndices (fvb : FlatVertexIndices) (p : GLPortal)
    (pass : StencilPass) : dpsCalls fvb (cachePrimIndices p) pass = dpsCalls fvb p pass := by
  simp [dpsCalls, cachePrimIndices_idem]

/-- C10: in `End` with `usestencil` true and counter `r` on entry, the log splits into the
calls before the stencil-decrement footprint draw, that draw, and six closing calls.  The
footprint draw `DrawPortalStencil(STP_DepthRestore)` and every call inside it are issued
with stencil operation `(GL_KEEP, GL_KEEP, GL_DECR)`, stencil function `GL_EQUAL r ~0` and
counter `r`; the counter is `r` for every earlier call and for the four calls that follow
the draw, and `r - 1` only for the last two, `glStencilOp(GL_KEEP, GL_KEEP, GL_KEEP)` and
`glStencilFunc(GL_EQUAL, r - 1, ~0)`.  On return the counter is `r - 1` and the stencil
state is `GL_EQUAL (r - 1) ~0` with operation `(GL_KEEP, GL_KEEP, GL_KEEP)`. -/
theorem C10_end_decrements_after_footprint_draw (env : Env) (p : GLPortal)
    (di enclosing : HWDrawInfo) (w : World) (hdi : di.outer = some enclosing) :
    ∃ res before drawn after,
      End env p di true w = some res ∧
      traceSince w res.2 = before ++ drawn ++ after ∧
      drawn.map Event.call =
        callsSince w (DrawPortalStencil env.fvb p .STP_DepthRestore w).2 ∧
      drawn.head?.map Event.call = some (.DrawPortalStencil .STP_DepthRestore) ∧
      (∀ e ∈ drawn,
        e.gl.stencilFail = .GL_KEEP ∧ e.gl.stencilZFail = .GL_KEEP ∧
        e.gl.stencilZPass = .GL_DECR ∧ e.gl.stencilFunc = .GL_EQUAL ∧
        e.gl.stencilRef = w.recursion ∧ e.gl.stencilMask = allBits ∧
        e.recursion = w.recursion) ∧
      (∀ e ∈ before, e.recursion = w.recursion) ∧
      after.map (fun e => (e.call, e.recursion)) =
        [(.glDepthFunc .GL_LESS, w.recursion), (.EnableTexture true, w.recursion),
         (.SetEffect .EFF_NONE, w.recursion), (.glColorMask true true true true, w.recursion),
         (.glStencilOp .GL_KEEP .GL_KEEP .GL_KEEP, w.recursion - 1),
         (.glStencilFunc .GL_EQUAL (w.recursion - 1) allBits, w.recursion - 1)] ∧
      res.2.recursion = w.recursion - 1 ∧
      res.2.gl.stencilFunc = .GL_EQUAL ∧ res.2.gl.stencilRef = res.2.recursion ∧
      res.2.gl.stencilMask = allBits ∧ res.2.gl.stencilFail = .GL_KEEP ∧
      res.2.gl.stencilZFail = .GL_KEEP ∧ res.2.gl.stencilZPass = .GL_KEEP := by
  -- the portal and world of the footprint draw, the log up to it, and the final world
  obtain ⟨pA, wA, before, wF, hpA, hrec, hgl, htr, hbefore, hwF, hEnd⟩ :
      ∃ (pA : GLPortal) (wA : World) (before : List Event) (wF : World),
        dpsCalls env.fvb pA .STP_DepthRestore = dpsCalls env.fvb p .STP_DepthRestore ∧
        wA.recursion = w.recursion ∧
        (wA.gl.stencilFail = .GL_KEEP ∧ wA.gl.stencilZFail = .GL_KEEP ∧
          wA.gl.stencilZPass = .GL_DECR ∧ wA.gl.stencilFunc = .GL_EQUAL ∧
          wA.gl.stencilRef = w.recursion ∧ wA.gl.stencilMask = allBits) ∧
        wA.trace = w.trace ++ before ∧
        (∀ e ∈ before, e.recursion = w.recursion) ∧
        wF = glStencilFunc .GL_EQUAL (w.recursion - 1) allBits
              (glStencilOp .GL_KEEP .GL_KEEP .GL_KEEP
                { glColorMask true true true true (SetEffect .EFF_NONE (EnableTexture true
                    (glDepthFunc .GL_LESS
                      (DrawPortalStencil env.fvb pA .STP_DepthRestore wA).2))) with
                  recursion := w.recursion - 1 }) ∧
        End env p di true w = some ((DrawPortalStencil env.fvb pA .STP_DepthRestore wA).1, wF) := by
    cases hnd : p.NeedDepthBuffer
    · obtain ⟨wA, hwA⟩ : ∃ wA, wA =
          (w |> emit .EndDrawInfo |> emit (.BindViewpoint enclosing.vpIndex)
            |> restoreVisibility env p enclosing.camera
            |> glColorMask false false false false |> SetEffect .EFF_NONE
            |> EnableTexture false |> glEnable .GL_DEPTH_TEST
            |> glDepthFunc .GL_LEQUAL |> glDepthRange 0 1
            |> glStencilOp .GL_KEEP .GL_KEEP .GL_DECR
            |> glStencilFunc .GL_EQUAL w.recursion allBits) := ⟨_, rfl⟩
      refine ⟨p, wA, traceSince w wA, _, rfl, ?_, ?_, ?_, ?_, rfl, ?_⟩
      · simp [hwA]
      · simp [hwA]
      · simp [hwA, traceSince]
      · simp [hwA, traceSince]
      · simp [hwA, End, hdi, Id.run, DrawPortalStencil_eq, hnd]
    · obtain ⟨wA, hwA⟩ : ∃ wA, wA =
          (w |> emit .EndDrawInfo |> emit (.BindViewpoint enclosing.vpIndex)
            |> restoreVisibility env p enclosing.camera
            |> glColorMask false false false false |> SetEffect .EFF_NONE
            |> EnableTexture false |> glDepthRange 1 1 |> glDepthFunc .GL_ALWAYS
            |> (fun x => (DrawPortalStencil env.fvb p .STP_DepthClear x).2)
            |> glDepthFunc .GL_LEQUAL |> glDepthRange 0 1
            |> glStencilOp .GL_KEEP .GL_KEEP .GL_DECR
            |> glStencilFunc .GL_EQUAL w.recursion allBits) := ⟨_, rfl⟩
      refine ⟨cachePrimIndices p, wA, traceSince w wA, _,
        dpsCalls_cachePrimIndices _ _ _, ?_, ?_, ?_, ?_, rfl, ?_⟩
      · simp [hwA, DrawPortalStencil_eq]
      · simp [hwA, DrawPortalStencil_eq]
      · simp [hwA, DrawPortalStencil_eq, traceSince]
      · simp only [hwA, DrawPortalStencil_eq, traceSince]
        simp
        rintro a (ha | rfl | rfl | rfl | rfl)
        · exact (dpsEvents_frame _ _ _ _ _ a ha).1
        all_goals rfl
      · simp [hwA, End, hdi, Id.run, DrawPortalStencil_eq, hnd]
  obtain ⟨g1, g2, g3, g4, g5, g6⟩ := hgl
  refine ⟨_, before, dpsEvents env.fvb pA .STP_DepthRestore wA.gl wA.recursion,
    traceSince (DrawPortalStencil env.fvb pA .STP_DepthRestore wA).2 wF,
    hEnd, ?_, ?_, ?_, ?_, hbefore, ?_, ?_, ?_, ?_, ?_, ?_, ?_, ?_⟩
  · subst hwF
    simp [DrawPortalStencil_eq, traceSince, htr]
  · rw [dpsEvents_calls, callsSince_DrawPortalStencil, hpA]
  · simp [dpsEvents]
  · intro e he
    have h := dpsEvents_frame _ _ _ _ _ e he
    simp [h, g1, g2, g3, g4, g5, g6, hrec]
  · subst hwF
    simp [DrawPortalStencil_eq, traceSince, hrec]
  all_goals (subst hwF; simp)

/-- Witness for C10: `End` after the start `sampleStarted`, entered at counter 1. -/
theorem C10_end_decrements_after_footprint_draw_witness :
    sampleChild.outer = some sampleOuter ∧ sampleStarted.world.recursion = 1 ∧
    ∃ res before drawn after,
      End sampleEnv sampleStarted.portal sampleChild true sampleStarted.world = some res ∧
      traceSince sampleStarted.world res.2 = before ++ drawn ++ after ∧
      drawn.head?.map Event.call = some (.DrawPortalStencil .STP_DepthRestore) ∧
      (∀ e ∈ drawn, e.gl.stencilZPass = .GL_DECR ∧ e.gl.stencilRef = 1 ∧ e.recursion = 1) ∧
      res.2.recursion = 0 ∧ res.2.gl.stencilRef = 0 :=
  ⟨rfl, by decide,
    (C10_end_decrements_after_footprint_draw sampleEnv sampleStarted.portal sampleChild
      sampleOuter sampleStarted.world rfl).imp fun _ h => h.imp fun _ h => h.imp fun _ h =>
        h.imp fun _ h =>
        ⟨h.1, h.2.1, h.2.2.2.1,
          fun e he => ⟨(h.2.2.2.2.1 e he).2.2.1, (h.2.2.2.2.1 e he).2.2.2.2.1,
            (h.2.2.2.2.1 e he).2.2.2.2.2.2⟩,
          h.2.2.2.2.2.2.2.1, h.2.2.2.2.2.2.2.2.2.1.trans h.2.2.2.2.2.2.2.1⟩⟩

theorem End_normalDrawing (env : Env) (p : GLPortal) (di enclosing : HWDrawInfo)
    (usestencil : Bool) (w : World) (hdi : di.outer = some enclosing)
    (h : (usestencil = false ∧ p.NeedDepthBuffer = false) ∨
      (w.gl.depthTest = true ∧ w.gl.depthMask = true ∧
        (usestencil = false ∨ p.NeedDepthBuffer = true))) :
    ∃ res, End env p di usestencil w = some res ∧ normalDrawing res.2.gl := by
  cases usestencil <;> cases hnd : p.NeedDepthBuffer <;> simp [hnd] at h <;>
    simp [End, Id.run, DrawPortalStencil_eq, hnd, hdi, normalDrawing, h]

theorem Start_depth_state (env : Env) (queryResult : Nat) (p : GLPortal)
    (usestencil doquery : Bool) (outer_di : HWDrawInfo) (w : World)
    (hnormal : normalDrawing w.gl)
    (hok : (Start env queryResult p usestencil doquery outer_di w).ok = true)
    (hdepth : p.NeedDepthBuffer = true) :
    (Start env queryResult p usestencil doquery outer_di w).world.gl.depthTest = true ∧
    (Start env queryResult p usestencil doquery outer_di w).world.gl.depthMask = true := by
  obtain ⟨h1, h2, -⟩ := hnormal
  revert hok
  cases usestencil <;> cases hgp : env.gl_portals <;> cases doquery <;>
    cases hnq : env.gl_noquery <;> by_cases hq : queryResult = 0 <;>
    simp [Start, Id.run, DrawPortalStencil_eq, hgp, hdepth, hnq, hq, h1, h2]

theorem Start_portal_NeedDepthBuffer (env : Env) (queryResult : Nat) (p : GLPortal)
    (usestencil doquery : Bool) (outer_di : HWDrawInfo) (w : World) :
    (Start env queryResult p usestencil doquery outer_di w).portal.NeedDepthBuffer =
      p.NeedDepthBuffer := by
  cases usestencil <;> cases hgp : env.gl_portals <;> cases hnd : p.NeedDepthBuffer <;>
    cases doquery <;> cases hnq : env.gl_noquery <;> by_cases hq : queryResult = 0 <;>
    simp [Start, Id.run, DrawPortalStencil_eq, hgp, hnd, hnq, hq]

/-- The seven render-state components are restored by `Start` followed by the matching
`End` on the non-stencil path and on the stencil path of a portal that needs a depth
buffer. -/
theorem Start_End_restores_normalDrawing (env : Env) (queryResult : Nat) (p : GLPortal)
    (usestencil doquery : Bool) (outer_di : HWDrawInfo) (w : World) (di : HWDrawInfo)
    (hnormal : normalDrawing w.gl) (hdi : di.outer = some outer_di)
    (hok : (Start env queryResult p usestencil doquery outer_di w).ok = true)
    (hpath : usestencil = false ∨ p.NeedDepthBuffer = true) :
    ∃ res, End env (Start env queryResult p usestencil doquery outer_di w).portal di usestencil
        (Start env queryResult p usestencil doquery outer_di w).world = some res ∧
      normalDrawing res.2.gl := by
  apply End_normalDrawing _ _ _ _ _ _ hdi
  rw [Start_portal_NeedDepthBuffer]
  cases hnd : p.NeedDepthBuffer
  · left
    exact ⟨by simpa [hnd] using hpath, rfl⟩
  · right
    obtain ⟨hA, hB⟩ := Start_depth_state env queryResult p usestencil doquery outer_di w
      hnormal hok hnd
    exact ⟨hA, hB, Or.inr rfl⟩

/-- Witness: the stencil path of `samplePortal`, which needs a depth buffer. -/
theorem Start_End_restores_normalDrawing_witness :
    normalDrawing sampleWorld.gl ∧ sampleChild.outer = some sampleOuter ∧
    sampleStarted.ok = true ∧
    ∃ res, End sampleEnv sampleStarted.portal sampleChild true sampleStarted.world = some res ∧
      normalDrawing res.2.gl :=
  ⟨by decide, rfl, by decide,
    Start_End_restores_normalDrawing sampleEnv 5 samplePortal true true sampleOuter sampleWorld
      sampleChild (by decide) rfl (by decide) (Or.inr rfl)⟩

end GLPortalModel
